import Mathlib

/-!
Shallow embedding of the team-generation engine of `src/App.py` (a Flask
service that splits a pool of 14 players into two balanced 7-player teams),
together with proofs about the claims of the specification.

Modelling conventions:
* Python numbers (ints and floats used as exact decimal weights) are embedded
  as rationals `ℚ`; machine-float rounding is not modelled, the weights
  0.3, 0.15, 0.2, 0.5, 1.5, 7.5 … are the exact rationals they denote.
* Python dicts with statically known keys (`POIDS`, `CONTRAINTES`,
  `COMPLEMENTARITE`, `COMPOSITION`) become individual constants or a
  function on the key strings with the dict's `.get` default.
* `random.shuffle` is replaced by an explicit stream
  `essais : ℕ → List Joueur` giving the pool ordering drawn at each raw
  iteration of the search loop (the spec requires injectable randomness).
* The persisted history file is passed in and returned explicitly: the
  HTTP handler `generate_teams` becomes a function from (registry, request
  names, configuration, stored history, randomness stream) to
  (response, stored history after the call).
* Reporting-only payloads (the per-line diagnostic dict of
  `analyser_complementarite_postes`, response rounding in `format_equipe`)
  are omitted; every quantity that feeds a decision or the search metric is
  embedded.
-/

namespace App

/-- A registry player: `{"nom", "poste": [...], "niveau": [...], "leader",
"individualité", "condition"}` from `joueurs.json`.  `poste` is the ordered
capability list, `niveau` the parallel proficiency list. -/
structure Joueur where
  nom : String
  poste : List String
  niveau : List ℚ
  leader : ℚ
  individualite : ℚ
  condition : ℚ
deriving DecidableEq

/-- `TEAM_SIZE = 7`. -/
def TEAM_SIZE : ℕ := 7

/-- `MAX_HISTORY = 5`. -/
def MAX_HISTORY : ℕ := 5

/-- `SEUIL_ELITE = 10.0`. -/
def SEUIL_ELITE : ℚ := 10

/-- `SEUIL_FAIBLE = 7.0`. -/
def SEUIL_FAIBLE : ℚ := 7

/-- `SEUIL_FAIBLE_POSTE = 7.5`. -/
def SEUIL_FAIBLE_POSTE : ℚ := 15/2

/-- `POIDS["leader"] = 0.3`. -/
def POIDS_leader : ℚ := 3/10

/-- `POIDS["individualité"] = 0.15`. -/
def POIDS_individualite : ℚ := 3/20

/-- `POIDS["condition"] = 0.2`. -/
def POIDS_condition : ℚ := 1/5

/-- `POIDS["synergie"] = 2.0`. -/
def POIDS_synergie : ℚ := 2

/-- `POIDS["anti_synergie_meme_poste"] = 5.0`. -/
def POIDS_anti_synergie_meme_poste : ℚ := 5

/-- `POIDS["repetition"] = 0.1`. -/
def POIDS_repetition : ℚ := 1/10

/-- `CONTRAINTES["elite_min"]`. -/
def elite_min : ℕ := 1

/-- `CONTRAINTES["elite_max"]`. -/
def elite_max : ℕ := 3

/-- `CONTRAINTES["faible_min"]`. -/
def faible_min : ℕ := 1

/-- `CONTRAINTES["faible_max"]`. -/
def faible_max : ℕ := 3

/-- `CONTRAINTES["leadership_min"]`. -/
def leadership_min : ℚ := 12

/-- `CONTRAINTES["leadership_max"]`. -/
def leadership_max : ℚ := 35

/-- `CONTRAINTES["individualite_min"]`. -/
def individualite_min : ℚ := 20

/-- `CONTRAINTES["individualite_max"]`. -/
def individualite_max : ℚ := 50

/-- `CONTRAINTES["condition_min"]`. -/
def condition_min : ℚ := 25

/-- `COMPLEMENTARITE["max_faibles_par_ligne"]`. -/
def max_faibles_par_ligne : ℕ := 1

/-- `COMPLEMENTARITE["min_score_ligne_defense"]`. -/
def min_score_ligne_defense : ℚ := 14

/-- `COMPLEMENTARITE["min_score_ligne_milieu"]`. -/
def min_score_ligne_milieu : ℚ := 20

/-- `COMPLEMENTARITE["bonus_ligne_equilibree"]`. -/
def bonus_ligne_equilibree : ℚ := 3/2

/-- The `postes_restants` dict of `affecter_postes_optimaux`: a copy of
`COMPOSITION`, whose keys are exactly `"gardien"`, `"défenseur"`, `"milieu"`
and `"attaquant"`. -/
structure PostesRestants where
  gardien : ℕ
  defenseur : ℕ
  milieu : ℕ
  attaquant : ℕ

/-- `postes_restants.get(poste, 0)`: the capacity left at `poste`, `0` for a
string that is not a key of the dict. -/
def PostesRestants.get (pr : PostesRestants) (poste : String) : ℕ :=
  if poste = "gardien" then pr.gardien
  else if poste = "défenseur" then pr.defenseur
  else if poste = "milieu" then pr.milieu
  else if poste = "attaquant" then pr.attaquant
  else 0

/-- `postes_restants[poste] -= 1` (only ever executed on one of the four
keys, under the guard `postes_restants.get(poste, 0) > 0`). -/
def PostesRestants.decr (pr : PostesRestants) (poste : String) : PostesRestants :=
  if poste = "gardien" then { pr with gardien := pr.gardien - 1 }
  else if poste = "défenseur" then { pr with defenseur := pr.defenseur - 1 }
  else if poste = "milieu" then { pr with milieu := pr.milieu - 1 }
  else if poste = "attaquant" then { pr with attaquant := pr.attaquant - 1 }
  else pr

/-- `COMPOSITION = {"gardien": 1, "défenseur": 2, "milieu": 3,
"attaquant": 1}`. -/
def COMPOSITION : PostesRestants := ⟨1, 2, 3, 1⟩

/-- `score_joueur(joueur, poste)`: the disqualifying sentinel `-10` when the
position is not among the player's capabilities, otherwise the proficiency at
that position plus the weighted leadership/individuality/condition bonuses. -/
def score_joueur (joueur : Joueur) (poste : String) : ℚ :=
  if poste ∈ joueur.poste then
    let idx := joueur.poste.indexOf poste
    let base := joueur.niveau.getD idx 0
    let bonus_leader := joueur.leader * POIDS_leader
    let bonus_individualite := joueur.individualite * POIDS_individualite
    let bonus_condition := joueur.condition * POIDS_condition
    base + bonus_leader + bonus_individualite + bonus_condition
  else -10

/-- `score_global_joueur(joueur)`: mean of `score_joueur` over the player's
capabilities, `0` for a player with no capabilities. -/
def score_global_joueur (joueur : Joueur) : ℚ :=
  let scores := joueur.poste.map (score_joueur joueur)
  if scores.isEmpty then 0 else scores.sum / (scores.length : ℚ)

/-- `categoriser_joueur(joueur)`: `"elite"` when the global score reaches
`SEUIL_ELITE`, else `"faible"` when it is strictly below `SEUIL_FAIBLE`,
else `"moyen"`. -/
def categoriser_joueur (joueur : Joueur) : String :=
  let score := score_global_joueur joueur
  if SEUIL_ELITE ≤ score then "elite"
  else if score < SEUIL_FAIBLE then "faible"
  else "moyen"

/-- `sauve_historique(historique)`: the sequence actually persisted, i.e. the
input truncated to its most recent `MAX_HISTORY * 2` entries
(`historique[-(MAX_HISTORY * 2):]`). -/
def sauve_historique (historique : List (List String)) : List (List String) :=
  historique.drop (historique.length - MAX_HISTORY * 2)

/-- Distinct-keeping scan used to model Python dict/set construction: keeps
the first occurrence of every element, in first-appearance order (the
iteration order of a Python dict built by repeated insertion). -/
def premieres_occurrences_aux : List String → List String → List String
  | [], _ => []
  | x :: xs, vues => if x ∈ vues then premieres_occurrences_aux xs vues
                     else x :: premieres_occurrences_aux xs (x :: vues)

/-- The distinct elements of a list, in first-appearance order. -/
def premieres_occurrences (l : List String) : List String :=
  premieres_occurrences_aux l []

/-- `len(set(equipe) & set(old))`: the number of distinct names common to the
two lists. -/
def overlap (equipe old : List String) : ℕ :=
  ((premieres_occurrences equipe).filter (fun x => x ∈ old)).length

/-- `similarité_avec_anciens_matchs(equipe, historique)`: `0` on an empty
history; otherwise the loop over `enumerate(reversed(historique))`
accumulating `overlap * POIDS["repetition"] * (1.5 - i/len(historique))`,
doubled when `overlap >= 5`. -/
def similarite_avec_anciens_matchs (equipe : List String)
    (historique : List (List String)) : ℚ :=
  if historique.isEmpty then 0
  else
    historique.reverse.enum.foldl
      (fun penalty p =>
        let recency_factor : ℚ := 3/2 - (p.1 : ℚ) / (historique.length : ℚ)
        let ov := overlap equipe p.2
        if 5 ≤ ov then penalty + (ov : ℚ) * POIDS_repetition * recency_factor * 2
        else penalty + (ov : ℚ) * POIDS_repetition * recency_factor)
      0

/-- `calc_synergies(equipe)`: folds over the configured synergy pairs, adding
`POIDS["synergie"]` whenever every member of the pair is in the team. -/
def calc_synergies (synergies : List (List String)) (equipe : List String) : ℚ :=
  synergies.foldl
    (fun bonus pair => if pair.all (fun j => j ∈ equipe) then bonus + POIDS_synergie
                       else bonus)
    0

/-- The names grouped under key `poste` in the `par_poste` dict of
`verifier_anti_synergies_meme_poste` (insertion order of the values). -/
def noms_au_poste (joueurs_assignes : List (Joueur × String)) (poste : String) :
    List String :=
  (joueurs_assignes.filter (fun ja => ja.2 = poste)).map (fun ja => ja.1.nom)

/-- `verifier_anti_synergies_meme_poste(joueurs_assignes)`: groups the
assigned players by assigned position; for every position whose group has at
least two members, adds `POIDS["anti_synergie_meme_poste"]` for each
configured anti-synergy pair wholly inside that group. -/
def verifier_anti_synergies_meme_poste (anti_synergies : List (List String))
    (joueurs_assignes : List (Joueur × String)) : ℚ :=
  let postes := premieres_occurrences (joueurs_assignes.map (fun ja => ja.2))
  postes.foldl
    (fun penalty poste =>
      let noms := noms_au_poste joueurs_assignes poste
      if 2 ≤ noms.length then
        anti_synergies.foldl
          (fun pen pair => if pair.all (fun j => j ∈ noms) then
                             pen + POIDS_anti_synergie_meme_poste
                           else pen)
          penalty
      else penalty)
    0

/-- The per-position scores of the players assigned to `poste` (the score
lists stored in the `lignes` / `par_poste` dicts of the complementarity
functions), in assignment order. -/
def scores_au_poste (joueurs_assignes : List (Joueur × String)) (poste : String) :
    List ℚ :=
  (joueurs_assignes.filter (fun ja => ja.2 = poste)).map
    (fun ja => score_joueur ja.1 ja.2)

/-- `max(scores) - min(scores)` of a nonempty score list (the `ecart` of a
line); `0` on the empty list, which the caller never passes. -/
def ecart_scores : List ℚ → ℚ
  | [] => 0
  | s :: rest => rest.foldl max s - rest.foldl min s

/-- The per-line term of the second loop of
`analyser_complementarite_postes`: for a line keyed by position `poste` with
minimum `ligne_min` (`none` for the attack line), the pair
(bonus added, penalty added); `(0, 0)` when the line is empty. -/
def analyse_ligne (joueurs_assignes : List (Joueur × String)) (poste : String)
    (ligne_min : Option ℚ) : ℚ × ℚ :=
  let scores := scores_au_poste joueurs_assignes poste
  if scores.isEmpty then (0, 0)
  else
    let total_score := scores.sum
    let nb_faibles := scores.countP (fun s => decide (s < 7))
    let pen1 : ℚ := if max_faibles_par_ligne < nb_faibles then
        3 * ((nb_faibles : ℚ) - (max_faibles_par_ligne : ℚ)) else 0
    let pen2 : ℚ := match ligne_min with
      | some m => if total_score < m then (m - total_score) * (1/2) else 0
      | none => 0
    let bonus : ℚ := if 2 ≤ scores.length ∧
        (2 ≤ ecart_scores scores ∧ ecart_scores scores ≤ 5) then
        bonus_ligne_equilibree else 0
    (bonus, pen1 + pen2)

/-- `analyser_complementarite_postes(joueurs_assignes)` reduced to its
numeric result `bonus - penalty` (the returned per-line diagnostic dict is
reporting-only and not modelled).  The first loop adds `20 * nb_faibles` for
every non-goalkeeper position group holding more than one player scoring at
most `SEUIL_FAIBLE_POSTE`; the second loop walks the défense, milieu and
attaque lines (goalkeeper excluded). -/
def analyser_complementarite_postes (joueurs_assignes : List (Joueur × String)) :
    ℚ :=
  let postes := premieres_occurrences (joueurs_assignes.map (fun ja => ja.2))
  let penalty_postes : ℚ :=
    (postes.map (fun poste =>
      if poste = "gardien" then (0 : ℚ)
      else
        let nb_faibles := (scores_au_poste joueurs_assignes poste).countP
          (fun s => decide (s ≤ SEUIL_FAIBLE_POSTE))
        if 1 < nb_faibles then 20 * (nb_faibles : ℚ) else 0)).sum
  let defense := analyse_ligne joueurs_assignes "défenseur" (some min_score_ligne_defense)
  let milieu := analyse_ligne joueurs_assignes "milieu" (some min_score_ligne_milieu)
  let attaque := analyse_ligne joueurs_assignes "attaquant" none
  (defense.1 + milieu.1 + attaque.1) -
    (penalty_postes + defense.2 + milieu.2 + attaque.2)

/-- One candidate tuple `(joueur, poste, score, i)` of the `preferences` list
of `affecter_postes_optimaux`: `i` is the 0-based priority rank of `poste` in
the player's capability list. -/
def preferences_equipe (equipe : List Joueur) : List (Joueur × String × ℚ × ℕ) :=
  equipe.flatMap (fun joueur =>
    joueur.poste.enum.map (fun p => (joueur, p.2, score_joueur joueur p.2, p.1)))

/-- The sort key order of `preferences.sort(key=lambda x: (-x[2], x[3]))`:
score descending, then priority rank ascending. -/
def pref_le (x y : Joueur × String × ℚ × ℕ) : Bool :=
  if y.2.2.1 < x.2.2.1 then true
  else if x.2.2.1 = y.2.2.1 then decide (x.2.2.2 ≤ y.2.2.2)
  else false

/-- Insertion step of a stable sort. -/
def inserer_trie (le : α → α → Bool) (a : α) : List α → List α
  | [] => [a]
  | b :: bs => if le a b then a :: b :: bs else b :: inserer_trie le a bs

/-- Stable ascending sort (insertion sort), the behaviour of Python's
`list.sort` with a key: elements with equal keys keep their relative order. -/
def trier_stable (le : α → α → Bool) : List α → List α
  | [] => []
  | a :: as_ => inserer_trie le a (trier_stable le as_)

/-- The greedy walk of `affecter_postes_optimaux` over the sorted
`preferences`: skip a tuple whose player is already used (`continue`);
otherwise assign when the position still has capacity; after each
non-skipped tuple, stop early once every player of the team is used. -/
def affecter_boucle (taille : ℕ) :
    List (Joueur × String × ℚ × ℕ) → PostesRestants → List String →
    List (Joueur × String) → List (Joueur × String)
  | [], _, _, joueurs_assignes => joueurs_assignes
  | (joueur, poste, _, _) :: rest, postes_restants, joueurs_utilises,
      joueurs_assignes =>
    if joueur.nom ∈ joueurs_utilises then
      affecter_boucle taille rest postes_restants joueurs_utilises joueurs_assignes
    else if 0 < postes_restants.get poste then
      let joueurs_utilises2 := joueurs_utilises ++ [joueur.nom]
      let joueurs_assignes2 := joueurs_assignes ++ [(joueur, poste)]
      if joueurs_utilises2.length = taille then joueurs_assignes2
      else affecter_boucle taille rest (postes_restants.decr poste)
        joueurs_utilises2 joueurs_assignes2
    else
      if joueurs_utilises.length = taille then joueurs_assignes
      else affecter_boucle taille rest postes_restants joueurs_utilises
        joueurs_assignes

/-- `affecter_postes_optimaux(equipe)`: builds every (player, position,
score, priority) tuple, sorts by score descending then priority ascending,
and greedily assigns under the `COMPOSITION` capacities. -/
def affecter_postes_optimaux (equipe : List Joueur) : List (Joueur × String) :=
  affecter_boucle equipe.length (trier_stable pref_le (preferences_equipe equipe))
    COMPOSITION [] []

/-- `sum(1 for j in equipe if categoriser_joueur(j) == "elite")`. -/
def nb_elite (equipe : List Joueur) : ℕ :=
  equipe.countP (fun j => categoriser_joueur j = "elite")

/-- `sum(1 for j in equipe if categoriser_joueur(j) == "moyen")`. -/
def nb_moyen (equipe : List Joueur) : ℕ :=
  equipe.countP (fun j => categoriser_joueur j = "moyen")

/-- `sum(1 for j in equipe if categoriser_joueur(j) == "faible")`. -/
def nb_faible (equipe : List Joueur) : ℕ :=
  equipe.countP (fun j => categoriser_joueur j = "faible")

/-- `sum(j["leader"] for j in equipe)`. -/
def total_leadership (equipe : List Joueur) : ℚ :=
  (equipe.map (fun j => j.leader)).sum

/-- `sum(j["individualité"] for j in equipe)`. -/
def total_individualite (equipe : List Joueur) : ℚ :=
  (equipe.map (fun j => j.individualite)).sum

/-- `sum(j["condition"] for j in equipe)`. -/
def total_condition (equipe : List Joueur) : ℚ :=
  (equipe.map (fun j => j.condition)).sum

/-- `verifier_contraintes(equipe)`: the roster validator; checks the elite
count, weak count, leadership sum, individuality sum and condition sum in
that order and returns the first failing reason, `(True, "OK")` otherwise. -/
def verifier_contraintes (equipe : List Joueur) : Bool × String :=
  if nb_elite equipe < elite_min ∨ elite_max < nb_elite equipe then
    (false, "Elite")
  else if nb_faible equipe < faible_min ∨ faible_max < nb_faible equipe then
    (false, "Faible")
  else if total_leadership equipe < leadership_min ∨
      leadership_max < total_leadership equipe then
    (false, "Leadership")
  else if total_individualite equipe < individualite_min ∨
      individualite_max < total_individualite equipe then
    (false, "Individualité")
  else if total_condition equipe < condition_min then
    (false, "Condition")
  else (true, "OK")

/-- `verifier_contraintes_complementarite(joueurs_assignes)`: fails on the
first non-goalkeeper position group (dict insertion order) holding more than
one player scoring at most `SEUIL_FAIBLE_POSTE`, then on a nonempty defense
line summing below its minimum, then on a nonempty midfield line summing
below its minimum. -/
def verifier_contraintes_complementarite
    (joueurs_assignes : List (Joueur × String)) : Bool × String :=
  let postes := premieres_occurrences (joueurs_assignes.map (fun ja => ja.2))
  match postes.find? (fun poste =>
      poste ≠ "gardien" ∧
        1 < (scores_au_poste joueurs_assignes poste).countP
          (fun s => decide (s ≤ SEUIL_FAIBLE_POSTE))) with
  | some poste => (false, "Poste " ++ poste ++ " trop faible")
  | none =>
    let defense := scores_au_poste joueurs_assignes "défenseur"
    let milieu := scores_au_poste joueurs_assignes "milieu"
    if ¬defense.isEmpty ∧ defense.sum < min_score_ligne_defense then
      (false, "Défense insuffisante")
    else if ¬milieu.isEmpty ∧ milieu.sum < min_score_ligne_milieu then
      (false, "Milieu insuffisant")
    else (true, "OK")

/-- The details dict built by `score_equipe` (the fields the search loop and
the response read; the name/position echo lists are reporting-only). -/
structure Details where
  score : ℚ
  score_base : ℚ
  score_reel : ℚ
  joueurs_details : List (Joueur × String)
  synergie : ℚ
  complementarite : ℚ
  anti_synergie_meme_poste : ℚ
  penalite_repetition : ℚ
  nb_elite : ℕ
  nb_moyen : ℕ
  nb_faible : ℕ
  leadership : ℚ
  individualite : ℚ
  condition : ℚ

/-- `score_equipe(equipe, historique)`: assigns positions, sums the assigned
per-position scores, adds the synergy and complementarity components,
subtracts the same-position anti-synergy penalty and the repetition penalty
against the (not yet updated) history. -/
def score_equipe (synergies anti_synergies : List (List String))
    (historique : List (List String)) (equipe : List Joueur) : ℚ × Details :=
  let joueurs_choisis := affecter_postes_optimaux equipe
  let total_score := (joueurs_choisis.map (fun ja => score_joueur ja.1 ja.2)).sum
  let noms := joueurs_choisis.map (fun ja => ja.1.nom)
  let synergie_bonus := calc_synergies synergies noms
  let anti_synergie_penalty :=
    verifier_anti_synergies_meme_poste anti_synergies joueurs_choisis
  let complementarite_bonus := analyser_complementarite_postes joueurs_choisis
  let repetition_penalty := similarite_avec_anciens_matchs noms historique
  let total := total_score + synergie_bonus + complementarite_bonus -
    anti_synergie_penalty - repetition_penalty
  (total,
   { score := total
     score_base := total_score
     score_reel := total_score + synergie_bonus + complementarite_bonus -
       anti_synergie_penalty
     joueurs_details := joueurs_choisis
     synergie := synergie_bonus
     complementarite := complementarite_bonus
     anti_synergie_meme_poste := anti_synergie_penalty
     penalite_repetition := repetition_penalty
     nb_elite := nb_elite equipe
     nb_moyen := nb_moyen equipe
     nb_faible := nb_faible equipe
     leadership := total_leadership equipe
     individualite := total_individualite equipe
     condition := total_condition equipe })

/-- `max_iterations = 5000`: the cap on valid attempts of the search loop. -/
def max_iterations : ℕ := 5000

/-- The mutable state of the search loop of `generate_teams`:
`meilleur_diff`, `meilleure_A`/`meilleure_B` (as one optional pair) and
`tentatives_valides`. -/
structure EtatRecherche where
  meilleur_diff : ℚ
  meilleure : Option (Details × Details)
  tentatives_valides : ℕ

/-- The initial search state: `meilleur_diff = 9999`, no best pair, zero
valid attempts. -/
def etat_initial : EtatRecherche := ⟨9999, none, 0⟩

/-- Whether one shuffled pool passes both validations of the loop body:
roster constraints on both halves, then complementarity constraints on both
assigned halves (a failure is a `continue`, an uncounted trial). -/
def essai_valide (pool : List Joueur) : Bool :=
  let equipe_A := pool.take TEAM_SIZE
  let equipe_B := pool.drop TEAM_SIZE
  (verifier_contraintes equipe_A).1 && (verifier_contraintes equipe_B).1 &&
    (verifier_contraintes_complementarite (affecter_postes_optimaux equipe_A)).1 &&
    (verifier_contraintes_complementarite (affecter_postes_optimaux equipe_B)).1

/-- For a valid trial: the combined imbalance metric
`diff_totale = |scoreA - scoreB| + 0.5·|ΔLeadership| + 0.3·|ΔIndividualité|
+ 0.3·|ΔCondition|` together with the two details dicts. -/
def tentative_diff (synergies anti_synergies : List (List String))
    (historique : List (List String)) (pool : List Joueur) :
    ℚ × Details × Details :=
  let equipe_A := pool.take TEAM_SIZE
  let equipe_B := pool.drop TEAM_SIZE
  let sA := score_equipe synergies anti_synergies historique equipe_A
  let sB := score_equipe synergies anti_synergies historique equipe_B
  let diff_totale := |sA.1 - sB.1| + |sA.2.leadership - sB.2.leadership| * (1/2) +
    |sA.2.individualite - sB.2.individualite| * (3/10) +
    |sA.2.condition - sB.2.condition| * (3/10)
  (diff_totale, sA.2, sB.2)

/-- The tail of the loop body after a trial was found valid: count the valid
attempt and keep the pair when it strictly improves `meilleur_diff`. -/
def maj_meilleur (st : EtatRecherche) (t : ℚ × Details × Details) :
    EtatRecherche :=
  if t.1 < st.meilleur_diff then ⟨t.1, some t.2, st.tentatives_valides + 1⟩
  else ⟨st.meilleur_diff, st.meilleure, st.tentatives_valides + 1⟩

/-- One iteration of the search loop on a shuffled pool. -/
def essai_un (synergies anti_synergies : List (List String))
    (historique : List (List String)) (pool : List Joueur)
    (st : EtatRecherche) : EtatRecherche :=
  if essai_valide pool then
    maj_meilleur st (tentative_diff synergies anti_synergies historique pool)
  else st

/-- The raw-trial loop `for _ in range(max_iterations * 3)` over the listed
pool orderings, breaking at the top of an iteration once
`tentatives_valides >= max_iterations`. -/
def recherche_boucle (synergies anti_synergies : List (List String))
    (historique : List (List String)) :
    List (List Joueur) → EtatRecherche → EtatRecherche
  | [], st => st
  | pool :: rest, st =>
    if max_iterations ≤ st.tentatives_valides then st
    else recherche_boucle synergies anti_synergies historique rest
      (essai_un synergies anti_synergies historique pool st)

/-- The pool orderings consumed by the raw-trial budget: the first
`max_iterations * 3` draws of the shuffle stream. -/
def essais_liste (essais : ℕ → List Joueur) : List (List Joueur) :=
  (List.range (max_iterations * 3)).map essais

/-- The whole randomized search of `generate_teams` (lines 369–412 of
`App.py`), parameterized by the shuffle stream. -/
def recherche (synergies anti_synergies : List (List String))
    (historique : List (List String)) (essais : ℕ → List Joueur) :
    EtatRecherche :=
  recherche_boucle synergies anti_synergies historique (essais_liste essais)
    etat_initial

/-- `[j["nom"] for j, _ in details["joueurs_details"]]`: the name list a
successful call appends to the history for one team. -/
def equipe_noms (details : Details) : List String :=
  details.joueurs_details.map (fun ja => ja.1.nom)

/-- A response of the `generate-teams` route: success payload, or a client
error (HTTP 400) with its reason string. -/
inductive Reponse where
  | succes (team_a team_b : Details) (tentatives_valides : ℕ)
  | erreur400 (message : String)

/-- The `generate_teams` handler: validates the request (exactly 14 selected
names, all resolving in the registry), runs the search against the loaded
history, and on success appends both winning name lists and persists the
truncated history.  Returns the response together with the stored history
after the call. -/
def generate_teams (joueurs_data : List Joueur) (selected_names : List String)
    (synergies anti_synergies : List (List String))
    (historique : List (List String)) (essais : ℕ → List Joueur) :
    Reponse × List (List String) :=
  if selected_names.length ≠ 14 then
    (.erreur400 (toString selected_names.length ++ " joueurs au lieu de 14 requis"),
     historique)
  else
    let joueurs_selected := joueurs_data.filter (fun j => j.nom ∈ selected_names)
    if joueurs_selected.length ≠ 14 then
      (.erreur400 ("Joueurs invalides - " ++ toString joueurs_selected.length ++
        "/14 trouvés"), historique)
    else
      let st := recherche synergies anti_synergies historique essais
      match st.meilleure with
      | none => (.erreur400 "Aucune combinaison valide", historique)
      | some (dA, dB) =>
        let nouvelle := historique ++ [equipe_noms dA, equipe_noms dB]
        (.succes dA dB st.tentatives_valides, sauve_historique nouvelle)

/-- Specification view of the search loop: process a list of already-scored
valid attempts in order, counting each one and keeping the first strict
improvement of `meilleur_diff` (this is what the loop body does after its
two validations pass). -/
def traite : List (ℚ × Details × Details) → EtatRecherche → EtatRecherche
  | [], st => st
  | t :: ts, st => traite ts (maj_meilleur st t)

/-- The valid attempts the search actually scores: the valid trials among
the first `max_iterations * 3` draws, capped at `max_iterations`, each
mapped to its imbalance metric and details pair. -/
def tentatives_retenues (synergies anti_synergies : List (List String))
    (historique : List (List String)) (essais : ℕ → List Joueur) :
    List (ℚ × Details × Details) :=
  (((essais_liste essais).filter essai_valide).take max_iterations).map
    (tentative_diff synergies anti_synergies historique)

/-- Test fixture: a player with a single capability, leadership 2 and
individuality 4. -/
def joueur_mono (nom poste : String) (niveau condition : ℚ) : Joueur :=
  ⟨nom, [poste], [niveau], 2, 4, condition⟩

/-- Test fixture: a 7-player team satisfying every roster and
complementarity constraint (2 elite, 1 weak, leadership 14, individuality
28, condition 28). -/
def equipe_b : List Joueur :=
  [joueur_mono "bG" "gardien" 8 4, joueur_mono "bD1" "défenseur" 6 4,
   joueur_mono "bD2" "défenseur" 8 4, joueur_mono "bM1" "milieu" 6 4,
   joueur_mono "bM2" "milieu" 6 4, joueur_mono "bM3" "milieu" 3 4,
   joueur_mono "bA1" "attaquant" 6 4]

/-- Test fixture: the same profile as `equipe_b` under different names. -/
def equipe_a : List Joueur :=
  [joueur_mono "aG" "gardien" 8 4, joueur_mono "aD1" "défenseur" 6 4,
   joueur_mono "aD2" "défenseur" 8 4, joueur_mono "aM1" "milieu" 6 4,
   joueur_mono "aM2" "milieu" 6 4, joueur_mono "aM3" "milieu" 3 4,
   joueur_mono "aA1" "attaquant" 6 4]

/-- Test fixture: `equipe_a` with the goalkeeper's condition raised to
100000; still passes every constraint (condition has no upper bound), but
makes the imbalance metric of any pairing against `equipe_b` huge. -/
def equipe_xa : List Joueur :=
  [joueur_mono "xG" "gardien" 8 100000, joueur_mono "xD1" "défenseur" 6 4,
   joueur_mono "xD2" "défenseur" 8 4, joueur_mono "xM1" "milieu" 6 4,
   joueur_mono "xM2" "milieu" 6 4, joueur_mono "xM3" "milieu" 3 4,
   joueur_mono "xA1" "attaquant" 6 4]

/-- The 14-player pool `equipe_xa ++ equipe_b`: every shuffle equal to this
ordering yields a valid attempt whose imbalance metric is 49998. -/
def pool_desequilibre : List Joueur := equipe_xa ++ equipe_b

/-- The 14-player pool `equipe_a ++ equipe_b`: every shuffle equal to this
ordering yields a valid attempt with imbalance metric 0. -/
def pool_equilibre : List Joueur := equipe_a ++ equipe_b

/-- The position assignment the greedy assigner computes for `equipe_b`. -/
def aff_b : List (Joueur × String) :=
  [(joueur_mono "bG" "gardien" 8 4, "gardien"),
   (joueur_mono "bD2" "défenseur" 8 4, "défenseur"),
   (joueur_mono "bD1" "défenseur" 6 4, "défenseur"),
   (joueur_mono "bM1" "milieu" 6 4, "milieu"),
   (joueur_mono "bM2" "milieu" 6 4, "milieu"),
   (joueur_mono "bA1" "attaquant" 6 4, "attaquant"),
   (joueur_mono "bM3" "milieu" 3 4, "milieu")]

/-- The position assignment the greedy assigner computes for `equipe_a`. -/
def aff_a : List (Joueur × String) :=
  [(joueur_mono "aG" "gardien" 8 4, "gardien"),
   (joueur_mono "aD2" "défenseur" 8 4, "défenseur"),
   (joueur_mono "aD1" "défenseur" 6 4, "défenseur"),
   (joueur_mono "aM1" "milieu" 6 4, "milieu"),
   (joueur_mono "aM2" "milieu" 6 4, "milieu"),
   (joueur_mono "aA1" "attaquant" 6 4, "attaquant"),
   (joueur_mono "aM3" "milieu" 3 4, "milieu")]

/-- The position assignment the greedy assigner computes for `equipe_xa`. -/
def aff_xa : List (Joueur × String) :=
  [(joueur_mono "xG" "gardien" 8 100000, "gardien"),
   (joueur_mono "xD2" "défenseur" 8 4, "défenseur"),
   (joueur_mono "xD1" "défenseur" 6 4, "défenseur"),
   (joueur_mono "xM1" "milieu" 6 4, "milieu"),
   (joueur_mono "xM2" "milieu" 6 4, "milieu"),
   (joueur_mono "xA1" "attaquant" 6 4, "attaquant"),
   (joueur_mono "xM3" "milieu" 3 4, "milieu")]

/-- Test fixture: a player whose only capability scores exactly the
disqualifying sentinel value `-10` (proficiency `-10`, all attributes `0`). -/
def joueur_sentinelle : Joueur := ⟨"x", ["milieu"], [-10], 0, 0, 0⟩

/-- Whether both members of a configured pair occupy one same assigned
position of the assignment (the condition under which claim C7 says the
anti-synergy penalty fires). -/
def paire_meme_poste (joueurs_assignes : List (Joueur × String))
    (pair : List String) : Bool :=
  (premieres_occurrences (joueurs_assignes.map (fun ja => ja.2))).any
    (fun poste => pair.all (fun j => j ∈ noms_au_poste joueurs_assignes poste))

/-- Characterization of the state reached by `traite` from a state with
best value `b0` and best pair `m0`: the final best value is the running
minimum, and either nothing improved on `b0` (the state is unchanged except
for the count), or the final pair is the first processed attempt achieving
the final minimum, which is strictly below `b0` and strictly below every
earlier attempt. -/
def CaractEtat (b0 : ℚ) (m0 : Option (Details × Details))
    (ts : List (ℚ × Details × Details)) (res : EtatRecherche) : Prop :=
  res.meilleur_diff = ts.foldl (fun b t => min b t.1) b0 ∧
  ((res.meilleure = m0 ∧ res.meilleur_diff = b0 ∧ ∀ t ∈ ts, b0 ≤ t.1) ∨
   (∃ k dA dB, res.meilleure = some (dA, dB) ∧
     ts.get? k = some (res.meilleur_diff, dA, dB) ∧ res.meilleur_diff < b0 ∧
     ∀ j x, j < k → ts.get? j = some x → res.meilleur_diff < x.1))

/-- The scored trial produced by the balanced fixture pool (used as the
concrete successful run: its imbalance metric is 0). -/
def tentative_equilibre : ℚ × Details × Details :=
  tentative_diff [] [] [] pool_equilibre

theorem foldl_add_map {α : Type} (f : α → ℚ) :
    ∀ (l : List α) (b : ℚ), l.foldl (fun acc x => acc + f x) b = b + (l.map f).sum
  | [], b => by simp
  | a :: l, b => by
    simp only [List.foldl_cons, List.map_cons, List.sum_cons]
    rw [foldl_add_map f l (b + f a)]
    ring

theorem foldl_if_add {α : Type} (c : α → Bool) (w : ℚ) :
    ∀ (l : List α) (b : ℚ),
      l.foldl (fun acc x => if c x then acc + w else acc) b =
        b + w * ((l.filter c).length : ℚ)
  | [], b => by simp
  | a :: l, b => by
    by_cases h : c a
    · simp only [List.foldl_cons, h, if_true, List.filter_cons_of_pos h,
        List.length_cons]
      rw [foldl_if_add c w l (b + w)]
      push_cast
      ring
    · simp only [List.foldl_cons, h, if_false, List.filter_cons_of_neg h]
      exact foldl_if_add c w l b

/-- Claim C5: a player is elite exactly when the global score is at least
`SEUIL_ELITE` (10.0), weak exactly when it is strictly below `SEUIL_FAIBLE`
(7.0), and moderate exactly when it lies in between; in particular a global
score of exactly 7 is moderate and exactly 10 is elite. -/
theorem categorisation_caracterisation (joueur : Joueur) :
    (categoriser_joueur joueur = "elite" ↔
      SEUIL_ELITE ≤ score_global_joueur joueur) ∧
    (categoriser_joueur joueur = "faible" ↔
      score_global_joueur joueur < SEUIL_FAIBLE) ∧
    (categoriser_joueur joueur = "moyen" ↔
      SEUIL_FAIBLE ≤ score_global_joueur joueur ∧
        score_global_joueur joueur < SEUIL_ELITE) := by
  simp only [categoriser_joueur]
  split_ifs with h1 h2 <;> simp_all [SEUIL_ELITE, SEUIL_FAIBLE] <;> linarith

theorem calc_synergies_count (synergies : List (List String))
    (equipe : List String) :
    calc_synergies synergies equipe = POIDS_synergie *
      ((synergies.filter (fun pair => pair.all (fun j => decide (j ∈ equipe)))).length : ℚ) := by
  unfold calc_synergies
  rw [foldl_if_add]
  ring

/-- Claim C8: the synergy bonus equals the configured weight times the
number of configured pairs wholly contained in the team's names, and it is
monotone under inclusion of name sets. -/
theorem synergies_monotones (synergies : List (List String))
    (t1 t2 : List String) (hsub : ∀ n ∈ t1, n ∈ t2) :
    (∀ equipe, calc_synergies synergies equipe = POIDS_synergie *
      ((synergies.filter (fun pair => pair.all (fun j => decide (j ∈ equipe)))).length : ℚ)) ∧
    calc_synergies synergies t1 ≤ calc_synergies synergies t2 := by
  refine ⟨fun equipe => calc_synergies_count synergies equipe, ?_⟩
  rw [calc_synergies_count, calc_synergies_count]
  have hw : (0 : ℚ) ≤ POIDS_synergie := by norm_num [POIDS_synergie]
  refine mul_le_mul_of_nonneg_left ?_ hw
  have hlen : (synergies.filter (fun pair => pair.all (fun j => decide (j ∈ t1)))).length ≤
      (synergies.filter (fun pair => pair.all (fun j => decide (j ∈ t2)))).length := by
    rw [← List.countP_eq_length_filter, ← List.countP_eq_length_filter]
    refine List.countP_mono_left (fun pair _ hall => ?_)
    simp only [List.all_eq_true, decide_eq_true_eq] at hall ⊢
    exact fun j hj => hsub j (hall j hj)
  exact_mod_cast hlen

/-- Witness for C8 at a concrete configuration: one configured pair, a
one-name team included in a two-name team. -/
theorem synergies_monotones_temoin :
    (∀ n ∈ ["p"], n ∈ ["p", "q"]) ∧
    ((∀ equipe, calc_synergies [["p", "q"]] equipe = POIDS_synergie *
      (([["p", "q"]].filter (fun pair => pair.all (fun j => decide (j ∈ equipe)))).length : ℚ)) ∧
    calc_synergies [["p", "q"]] ["p"] ≤ calc_synergies [["p", "q"]] ["p", "q"]) :=
  ⟨by decide, synergies_monotones [["p", "q"]] ["p"] ["p", "q"] (by decide)⟩

/-- Claim C4: the roster validator fails exactly when one of the five
checked quantities is out of range, and the reason it reports is the first
failing check in the order elite, weak, leadership, individuality,
condition; otherwise it passes with `(True, "OK")`. -/
theorem contraintes_caracterisation (equipe : List Joueur)
    (_h7 : equipe.length = 7) :
    ((verifier_contraintes equipe).1 = false ↔
      ((nb_elite equipe < elite_min ∨ elite_max < nb_elite equipe) ∨
       (nb_faible equipe < faible_min ∨ faible_max < nb_faible equipe) ∨
       (total_leadership equipe < leadership_min ∨
         leadership_max < total_leadership equipe) ∨
       (total_individualite equipe < individualite_min ∨
         individualite_max < total_individualite equipe) ∨
       total_condition equipe < condition_min)) ∧
    (verifier_contraintes equipe = (false, "Elite") ↔
      (nb_elite equipe < elite_min ∨ elite_max < nb_elite equipe)) ∧
    (verifier_contraintes equipe = (false, "Faible") ↔
      (¬(nb_elite equipe < elite_min ∨ elite_max < nb_elite equipe) ∧
       (nb_faible equipe < faible_min ∨ faible_max < nb_faible equipe))) ∧
    (verifier_contraintes equipe = (false, "Leadership") ↔
      (¬(nb_elite equipe < elite_min ∨ elite_max < nb_elite equipe) ∧
       ¬(nb_faible equipe < faible_min ∨ faible_max < nb_faible equipe) ∧
       (total_leadership equipe < leadership_min ∨
         leadership_max < total_leadership equipe))) ∧
    (verifier_contraintes equipe = (false, "Individualité") ↔
      (¬(nb_elite equipe < elite_min ∨ elite_max < nb_elite equipe) ∧
       ¬(nb_faible equipe < faible_min ∨ faible_max < nb_faible equipe) ∧
       ¬(total_leadership equipe < leadership_min ∨
         leadership_max < total_leadership equipe) ∧
       (total_individualite equipe < individualite_min ∨
         individualite_max < total_individualite equipe))) ∧
    (verifier_contraintes equipe = (false, "Condition") ↔
      (¬(nb_elite equipe < elite_min ∨ elite_max < nb_elite equipe) ∧
       ¬(nb_faible equipe < faible_min ∨ faible_max < nb_faible equipe) ∧
       ¬(total_leadership equipe < leadership_min ∨
         leadership_max < total_leadership equipe) ∧
       ¬(total_individualite equipe < individualite_min ∨
         individualite_max < total_individualite equipe) ∧
       total_condition equipe < condition_min)) := by
  unfold verifier_contraintes
  split_ifs <;> simp_all

theorem enumFrom_map_sum {β : Type} (f : ℕ × β → ℚ) (d : β) :
    ∀ (l : List β) (n : ℕ),
      ((List.enumFrom n l).map f).sum =
        ∑ i ∈ Finset.range l.length, f (n + i, l.getD i d)
  | [], n => by simp
  | a :: l, n => by
    simp only [List.enumFrom_cons, List.map_cons, List.sum_cons,
      List.length_cons]
    rw [enumFrom_map_sum f d l (n + 1), Finset.sum_range_succ']
    have h0 : f (n + 0, (a :: l).getD 0 d) = f (n, a) := by norm_num
    have hs : ∀ i, f (n + (i + 1), (a :: l).getD (i + 1) d) =
        f (n + 1 + i, l.getD i d) := by
      intro i
      have : n + (i + 1) = n + 1 + i := by omega
      simp [this]
    simp only [h0, hs]
    ring

theorem enum_map_sum {β : Type} (f : ℕ × β → ℚ) (d : β) (l : List β) :
    (l.enum.map f).sum = ∑ i ∈ Finset.range l.length, f (i, l.getD i d) := by
  have h := enumFrom_map_sum f d l 0
  simpa using h

theorem getD_reverse {β : Type} (l : List β) (d : β) (i : ℕ)
    (h : i < l.length) :
    l.reverse.getD i d = l.getD (l.length - 1 - i) d := by
  have h1 : i < l.reverse.length := by simpa using h
  have h2 : l.length - 1 - i < l.length := by omega
  rw [List.getD_eq_getElem l.reverse d h1, List.getD_eq_getElem l d h2]
  exact List.getElem_reverse h1

/-- Claim C3: the repetition penalty is 0 on an empty history, and in
general equals the sum over reverse indices `i` (0 = most recent entry) of
`overlap * POIDS["repetition"] * (1.5 - i/H)`, doubled exactly when the
overlap with that entry is at least 5. -/
theorem repetition_caracterisation (equipe : List String)
    (historique : List (List String)) :
    similarite_avec_anciens_matchs equipe [] = 0 ∧
    similarite_avec_anciens_matchs equipe historique =
      ∑ i ∈ Finset.range historique.length,
        (overlap equipe (historique.getD (historique.length - 1 - i) []) : ℚ) *
          POIDS_repetition * (3/2 - (i : ℚ) / (historique.length : ℚ)) *
          (if 5 ≤ overlap equipe (historique.getD (historique.length - 1 - i) [])
            then 2 else 1) := by
  constructor
  · rfl
  · rcases historique with _ | ⟨e, h⟩
    · simp [similarite_avec_anciens_matchs]
    · set hist := e :: h with hdef
      have hne : ¬hist.isEmpty := by simp [hdef]
      unfold similarite_avec_anciens_matchs
      rw [if_neg hne]
      have hbody : (fun (penalty : ℚ) (p : ℕ × List String) =>
          let recency_factor : ℚ := 3/2 - (p.1 : ℚ) / (hist.length : ℚ)
          let ov := overlap equipe p.2
          if 5 ≤ ov then penalty + (ov : ℚ) * POIDS_repetition * recency_factor * 2
          else penalty + (ov : ℚ) * POIDS_repetition * recency_factor) =
          (fun penalty p => penalty +
            (overlap equipe p.2 : ℚ) * POIDS_repetition *
              (3/2 - (p.1 : ℚ) / (hist.length : ℚ)) *
              (if 5 ≤ overlap equipe p.2 then 2 else 1)) := by
        funext penalty p
        by_cases h5 : 5 ≤ overlap equipe p.2
        · simp [h5]
        · simp [h5]
      rw [hbody, foldl_add_map, enum_map_sum _ ([] : List String), zero_add]
      rw [List.length_reverse]
      refine Finset.sum_congr rfl (fun i hi => ?_)
      rw [Finset.mem_range] at hi
      rw [getD_reverse hist [] i hi]

theorem mem_inserer_trie {α : Type} (le : α → α → Bool) (a x : α) :
    ∀ l : List α, x ∈ inserer_trie le a l ↔ x = a ∨ x ∈ l
  | [] => by simp [inserer_trie]
  | b :: bs => by
    unfold inserer_trie
    by_cases h : le a b
    · simp [h]
    · have h' : le a b = false := by simpa using h
      simp only [h', Bool.false_eq_true, if_false, List.mem_cons,
        mem_inserer_trie le a x bs]
      tauto

theorem mem_trier_stable {α : Type} (le : α → α → Bool) (x : α) :
    ∀ l : List α, x ∈ trier_stable le l ↔ x ∈ l
  | [] => by simp [trier_stable]
  | a :: l => by
    unfold trier_stable
    rw [mem_inserer_trie, mem_trier_stable le x l]
    simp

theorem mem_preferences_poste (equipe : List Joueur)
    (x : Joueur × String × ℚ × ℕ) (hx : x ∈ preferences_equipe equipe) :
    x.2.1 ∈ x.1.poste := by
  unfold preferences_equipe at hx
  rw [List.mem_flatMap] at hx
  obtain ⟨joueur, _, hx⟩ := hx
  rw [List.mem_map] at hx
  obtain ⟨p, hp, rfl⟩ := hx
  rw [List.enum_eq_zip_range] at hp
  have := List.of_mem_zip (by simpa using hp)
  simpa using this.2

theorem get_decr (pr : PostesRestants) (poste p : String) :
    (pr.decr poste).get p = if p = poste then pr.get poste - 1 else pr.get p := by
  unfold PostesRestants.decr PostesRestants.get
  split_ifs <;> simp_all

/-- The three invariants of the greedy walk of `affecter_postes_optimaux`,
proved by induction along the preference list: every produced pair respects
the player's capability list, no player name is assigned twice, and the
count of players per position never exceeds the initial capacities. -/
theorem affecter_boucle_invariants (cap0 : PostesRestants) :
    ∀ (prefs : List (Joueur × String × ℚ × ℕ)) (restants : PostesRestants)
      (utilises : List String) (acc : List (Joueur × String)) (taille : ℕ),
      (∀ x ∈ prefs, x.2.1 ∈ x.1.poste) →
      (∀ y ∈ acc, y.2 ∈ y.1.poste) →
      utilises = acc.map (fun y => y.1.nom) →
      utilises.Nodup →
      (∀ p, acc.countP (fun y => decide (y.2 = p)) + restants.get p = cap0.get p) →
      (∀ y ∈ affecter_boucle taille prefs restants utilises acc,
        y.2 ∈ y.1.poste) ∧
      ((affecter_boucle taille prefs restants utilises acc).map
        (fun y => y.1.nom)).Nodup ∧
      (∀ p, (affecter_boucle taille prefs restants utilises acc).countP
        (fun y => decide (y.2 = p)) ≤ cap0.get p)
  | [], restants, utilises, acc, taille => by
    intro _ hacc hnoms hnodup hcount
    unfold affecter_boucle
    exact ⟨hacc, hnoms ▸ hnodup, fun p => by
      have := hcount p; omega⟩
  | (joueur, poste, s, i) :: rest, restants, utilises, acc, taille => by
    intro hpref hacc hnoms hnodup hcount
    unfold affecter_boucle
    by_cases hused : joueur.nom ∈ utilises
    · rw [if_pos hused]
      exact affecter_boucle_invariants cap0 rest restants utilises acc taille
        (fun x hx => hpref x (List.mem_cons_of_mem _ hx)) hacc hnoms hnodup hcount
    · rw [if_neg hused]
      by_cases hcap : 0 < restants.get poste
      · rw [if_pos hcap]
        have hposte : poste ∈ joueur.poste :=
          hpref (joueur, poste, s, i) (List.mem_cons_self _ _)
        have hacc2 : ∀ y ∈ acc ++ [(joueur, poste)], y.2 ∈ y.1.poste := by
          intro y hy
          rcases List.mem_append.1 hy with hy | hy
          · exact hacc y hy
          · simp only [List.mem_singleton] at hy
            subst hy
            exact hposte
        have hnoms2 : utilises ++ [joueur.nom] =
            (acc ++ [(joueur, poste)]).map (fun y => y.1.nom) := by
          simp [hnoms]
        have hnodup2 : (utilises ++ [joueur.nom]).Nodup := by
          rw [List.nodup_append]
          exact ⟨hnodup, List.nodup_singleton _, by simpa using hused⟩
        have hcount2 : ∀ p, (acc ++ [(joueur, poste)]).countP
            (fun y => decide (y.2 = p)) + (restants.decr poste).get p =
            cap0.get p := by
          intro p
          have h0 := hcount p
          rw [List.countP_append, get_decr]
          by_cases hp : p = poste
          · subst hp
            have e1 : List.countP (fun y => decide (y.2 = p)) [(joueur, p)] = 1 := by
              simp
            rw [e1, if_pos rfl]
            omega
          · have e1 : List.countP (fun y => decide (y.2 = p))
                [(joueur, poste)] = 0 := by
              simp [Ne.symm hp]
            rw [e1, if_neg hp]
            omega
        by_cases hfin : (utilises ++ [joueur.nom]).length = taille
        · rw [if_pos hfin]
          refine ⟨hacc2, ?_, fun p => ?_⟩
          · rw [← hnoms2]; exact hnodup2
          · have := hcount2 p; omega
        · rw [if_neg hfin]
          exact affecter_boucle_invariants cap0 rest (restants.decr poste)
            (utilises ++ [joueur.nom]) (acc ++ [(joueur, poste)]) taille
            (fun x hx => hpref x (List.mem_cons_of_mem _ hx))
            hacc2 hnoms2 hnodup2 hcount2
      · rw [if_neg hcap]
        by_cases hfin : utilises.length = taille
        · rw [if_pos hfin]
          exact ⟨hacc, hnoms ▸ hnodup, fun p => by have := hcount p; omega⟩
        · rw [if_neg hfin]
          exact affecter_boucle_invariants cap0 rest restants utilises acc taille
            (fun x hx => hpref x (List.mem_cons_of_mem _ hx)) hacc hnoms hnodup
            hcount

/-- Claim C6: in every assignment produced by the position assigner, no
player name appears twice, and the number of players assigned to each
position never exceeds the configured composition (1 goalkeeper,
2 defenders, 3 midfielders, 1 forward). -/
theorem affectation_invariants (equipe : List Joueur) :
    ((affecter_postes_optimaux equipe).map (fun ja => ja.1.nom)).Nodup ∧
    ∀ poste, (affecter_postes_optimaux equipe).countP
      (fun ja => decide (ja.2 = poste)) ≤ COMPOSITION.get poste := by
  have h := affecter_boucle_invariants COMPOSITION
    (trier_stable pref_le (preferences_equipe equipe)) COMPOSITION [] []
    equipe.length
    (fun x hx => mem_preferences_poste equipe x
      ((mem_trier_stable pref_le x (preferences_equipe equipe)).1 hx))
    (fun y hy => absurd hy (List.not_mem_nil y))
    (by simp) List.nodup_nil (fun p => by simp)
  exact ⟨h.2.1, h.2.2⟩

/-- Claim C10 (amended): every pair produced by the position assigner
assigns a position that is among the player's capability list, so its
per-position score is computed by the capability branch of `score_joueur`
(proficiency plus the weighted attribute bonuses), not by the disqualifying
sentinel branch.  (The value of that formula can still coincidentally equal
`-10`, see the counterexample.) -/
theorem affectation_postes_licites (equipe : List Joueur)
    (ja : Joueur × String) (h : ja ∈ affecter_postes_optimaux equipe) :
    ja.2 ∈ ja.1.poste ∧
    score_joueur ja.1 ja.2 =
      ja.1.niveau.getD (ja.1.poste.indexOf ja.2) 0 +
        ja.1.leader * POIDS_leader + ja.1.individualite * POIDS_individualite +
        ja.1.condition * POIDS_condition := by
  have hmem := (affecter_boucle_invariants COMPOSITION
    (trier_stable pref_le (preferences_equipe equipe)) COMPOSITION [] []
    equipe.length
    (fun x hx => mem_preferences_poste equipe x
      ((mem_trier_stable pref_le x (preferences_equipe equipe)).1 hx))
    (fun y hy => absurd hy (List.not_mem_nil y))
    (by simp) List.nodup_nil (fun p => by simp)).1 ja h
  refine ⟨hmem, ?_⟩
  unfold score_joueur
  rw [if_pos hmem]

/-- Witness for C10 (amended) at a concrete one-player team. -/
theorem affectation_postes_licites_temoin :
    ((joueur_mono "w" "milieu" 6 4, "milieu") ∈
      affecter_postes_optimaux [joueur_mono "w" "milieu" 6 4]) ∧
    ("milieu" ∈ (joueur_mono "w" "milieu" 6 4).poste ∧
     score_joueur (joueur_mono "w" "milieu" 6 4) "milieu" =
       (joueur_mono "w" "milieu" 6 4).niveau.getD
         ((joueur_mono "w" "milieu" 6 4).poste.indexOf "milieu") 0 +
         (joueur_mono "w" "milieu" 6 4).leader * POIDS_leader +
         (joueur_mono "w" "milieu" 6 4).individualite * POIDS_individualite +
         (joueur_mono "w" "milieu" 6 4).condition * POIDS_condition) := by
  have hmem : (joueur_mono "w" "milieu" 6 4, "milieu") ∈
      affecter_postes_optimaux [joueur_mono "w" "milieu" 6 4] := by
    have h : affecter_postes_optimaux [joueur_mono "w" "milieu" 6 4] =
        [(joueur_mono "w" "milieu" 6 4, "milieu")] := by
      simp [affecter_postes_optimaux, preferences_equipe, joueur_mono,
        trier_stable, inserer_trie, affecter_boucle, COMPOSITION,
        PostesRestants.get, List.enum, List.enumFrom]
    rw [h]
    exact List.mem_cons_self _ _
  exact ⟨hmem, affectation_postes_licites _ _ hmem⟩

/-- Counterexample for C10 as stated: the assigner gives this player its
listed position `"milieu"`, and the assigned per-position score is exactly
the disqualifying sentinel value `-10` (computed by the capability branch:
proficiency `-10` plus zero bonuses). -/
theorem affectation_score_sentinelle :
    (joueur_sentinelle, "milieu") ∈ affecter_postes_optimaux [joueur_sentinelle] ∧
    score_joueur joueur_sentinelle "milieu" = -10 := by
  constructor
  · have h : affecter_postes_optimaux [joueur_sentinelle] =
        [(joueur_sentinelle, "milieu")] := by
      simp [affecter_postes_optimaux, preferences_equipe, joueur_sentinelle,
        trier_stable, inserer_trie, affecter_boucle, COMPOSITION,
        PostesRestants.get, List.enum, List.enumFrom]
    rw [h]
    exact List.mem_cons_self _ _
  · norm_num [score_joueur, joueur_sentinelle, POIDS_leader,
      POIDS_individualite, POIDS_condition, List.indexOf, List.findIdx,
      List.findIdx.go]

theorem mem_premieres_occurrences_aux :
    ∀ (l vues : List String) (x : String),
      x ∈ premieres_occurrences_aux l vues ↔ x ∈ l ∧ x ∉ vues
  | [], vues, x => by simp [premieres_occurrences_aux]
  | y :: ys, vues, x => by
    unfold premieres_occurrences_aux
    by_cases hy : y ∈ vues
    · rw [if_pos hy, mem_premieres_occurrences_aux ys vues x]
      simp only [List.mem_cons]
      constructor
      · exact fun ⟨h1, h2⟩ => ⟨Or.inr h1, h2⟩
      · rintro ⟨h1 | h1, h2⟩
        · exact absurd (h1 ▸ hy) h2
        · exact ⟨h1, h2⟩
    · rw [if_neg hy]
      simp only [List.mem_cons, mem_premieres_occurrences_aux ys (y :: vues) x]
      constructor
      · rintro (rfl | ⟨h1, h2⟩)
        · exact ⟨Or.inl rfl, hy⟩
        · exact ⟨Or.inr h1, fun hv => h2 (Or.inr hv)⟩
      · rintro ⟨rfl | h1, h2⟩
        · exact Or.inl rfl
        · by_cases hxy : x = y
          · exact Or.inl hxy
          · exact Or.inr ⟨h1, by simp [hxy, h2]⟩

theorem mem_premieres_occurrences (l : List String) (x : String) :
    x ∈ premieres_occurrences l ↔ x ∈ l := by
  unfold premieres_occurrences
  rw [mem_premieres_occurrences_aux]
  simp

theorem nodup_premieres_occurrences_aux :
    ∀ (l vues : List String), (premieres_occurrences_aux l vues).Nodup
  | [], vues => by simp [premieres_occurrences_aux]
  | y :: ys, vues => by
    unfold premieres_occurrences_aux
    by_cases hy : y ∈ vues
    · rw [if_pos hy]
      exact nodup_premieres_occurrences_aux ys vues
    · rw [if_neg hy]
      refine List.Nodup.cons ?_ (nodup_premieres_occurrences_aux ys (y :: vues))
      intro hmem
      have := (mem_premieres_occurrences_aux ys (y :: vues) y).1 hmem
      exact this.2 (List.mem_cons_self _ _)

theorem nodup_premieres_occurrences (l : List String) :
    (premieres_occurrences l).Nodup :=
  nodup_premieres_occurrences_aux l []

theorem sum_map_nat_add {α : Type} (f g : α → ℕ) :
    ∀ l : List α, (l.map (fun x => f x + g x)).sum = (l.map f).sum + (l.map g).sum
  | [] => by simp
  | a :: l => by
    simp only [List.map_cons, List.sum_cons, sum_map_nat_add f g l]
    omega

theorem sum_map_nat_zero {α : Type} : ∀ l : List α, (l.map (fun _ => (0 : ℕ))).sum = 0
  | [] => by simp
  | a :: l => by simp [sum_map_nat_zero l]

theorem sum_indicateur_zero {α : Type} (c : α → Prop) [DecidablePred c] :
    ∀ l : List α, (∀ p ∈ l, ¬c p) →
      (l.map (fun p => if c p then (1 : ℕ) else 0)).sum = 0
  | [], _ => by simp
  | a :: l, h => by
    simp only [List.map_cons, List.sum_cons,
      if_neg (h a (List.mem_cons_self _ _)),
      sum_indicateur_zero c l (fun p hp => h p (List.mem_cons_of_mem _ hp))]

theorem sum_indicateur_unique {α : Type} (c : α → Prop) [DecidablePred c] :
    ∀ l : List α, l.Nodup → (∀ p ∈ l, ∀ q ∈ l, c p → c q → p = q) →
      (l.map (fun p => if c p then (1 : ℕ) else 0)).sum =
        if ∃ p ∈ l, c p then 1 else 0
  | [], _, _ => by simp
  | a :: l, hnodup, huniq => by
    simp only [List.map_cons, List.sum_cons]
    by_cases hca : c a
    · rw [if_pos hca, sum_indicateur_zero c l, if_pos ⟨a, List.mem_cons_self _ _, hca⟩]
      intro p hp hcp
      have : p = a := huniq p (List.mem_cons_of_mem _ hp) a
        (List.mem_cons_self _ _) hcp hca
      exact (List.Nodup.not_mem (this ▸ hnodup)) (this ▸ hp)
    · rw [if_neg hca, Nat.zero_add,
        sum_indicateur_unique c l (List.Nodup.of_cons hnodup)
          (fun p hp q hq => huniq p (List.mem_cons_of_mem _ hp) q
            (List.mem_cons_of_mem _ hq))]
      congr 1
      simp only [eq_iff_iff, List.mem_cons]
      constructor
      · exact fun ⟨p, hp, hcp⟩ => ⟨p, Or.inr hp, hcp⟩
      · rintro ⟨p, rfl | hp, hcp⟩
        · exact absurd hcp hca
        · exact ⟨p, hp, hcp⟩

theorem deux_mem_length {l : List String} {a b : String}
    (ha : a ∈ l) (hb : b ∈ l) (hab : a ≠ b) : 2 ≤ l.length := by
  rcases l with _ | ⟨x, _ | ⟨y, xs⟩⟩
  · simp at ha
  · simp at ha hb
    exact absurd (ha.trans hb.symm) hab
  · simp only [List.length_cons]
    omega

theorem noms_au_poste_unique (joueurs_assignes : List (Joueur × String))
    (hnodup : (joueurs_assignes.map (fun ja => ja.1.nom)).Nodup)
    (a p q : String) (hp : a ∈ noms_au_poste joueurs_assignes p)
    (hq : a ∈ noms_au_poste joueurs_assignes q) : p = q := by
  unfold noms_au_poste at hp hq
  rw [List.mem_map] at hp hq
  obtain ⟨ja, hja, hna⟩ := hp
  obtain ⟨jb, hjb, hnb⟩ := hq
  rw [List.mem_filter] at hja hjb
  have hinj := List.inj_on_of_nodup_map hnodup
  have : ja = jb := hinj hja.1 hjb.1 (by rw [hna, hnb])
  have hp' : ja.2 = p := by simpa using hja.2
  have hq' : jb.2 = q := by simpa using hjb.2
  rw [← hp', ← hq', this]

theorem paire_deux_membres {pair : List String}
    (hp : pair.length = 2 ∧ pair.Nodup) :
    ∃ a b, pair = [a, b] ∧ a ≠ b := by
  obtain ⟨hlen, hnd⟩ := hp
  rcases pair with _ | ⟨a, rest1⟩
  · simp at hlen
  rcases rest1 with _ | ⟨b, rest2⟩
  · simp at hlen
  rcases rest2 with _ | ⟨c, rest3⟩
  · refine ⟨a, b, rfl, fun h => ?_⟩
    rw [h] at hnd
    simp [List.nodup_cons] at hnd
  · simp only [List.length_cons] at hlen
    omega

theorem sum_map_mul_cast {α : Type} (w : ℚ) (n : α → ℕ) :
    ∀ l : List α, (l.map (fun x => w * ((n x : ℕ) : ℚ))).sum =
      w * (((l.map n).sum : ℕ) : ℚ)
  | [] => by simp
  | a :: l => by
    simp only [List.map_cons, List.sum_cons, sum_map_mul_cast w n l]
    push_cast
    ring

theorem compte_paires (joueurs_assignes : List (Joueur × String))
    (hnodup : (joueurs_assignes.map (fun ja => ja.1.nom)).Nodup) :
    ∀ anti : List (List String),
      (∀ pair ∈ anti, pair.length = 2 ∧ pair.Nodup) →
      ((premieres_occurrences (joueurs_assignes.map (fun ja => ja.2))).map
        (fun poste =>
          if 2 ≤ (noms_au_poste joueurs_assignes poste).length then
            anti.countP (fun pair =>
              pair.all (fun j => j ∈ noms_au_poste joueurs_assignes poste))
          else 0)).sum =
      anti.countP (paire_meme_poste joueurs_assignes)
  | [], _ => by simp [sum_map_nat_zero]
  | pair :: rest, hpaires => by
    have hp := hpaires pair (List.mem_cons_self _ _)
    have hrest := compte_paires joueurs_assignes hnodup rest
      (fun q hq => hpaires q (List.mem_cons_of_mem _ hq))
    obtain ⟨a, b, hab, hne⟩ := paire_deux_membres hp
    have hsplit : ∀ poste : String,
        (if 2 ≤ (noms_au_poste joueurs_assignes poste).length then
          (pair :: rest).countP (fun q =>
            q.all (fun j => j ∈ noms_au_poste joueurs_assignes poste))
        else 0) =
        (if 2 ≤ (noms_au_poste joueurs_assignes poste).length ∧
            pair.all (fun j => j ∈ noms_au_poste joueurs_assignes poste) = true
          then 1 else 0) +
        (if 2 ≤ (noms_au_poste joueurs_assignes poste).length then
          rest.countP (fun q =>
            q.all (fun j => j ∈ noms_au_poste joueurs_assignes poste))
        else 0) := by
      intro poste
      rw [List.countP_cons]
      split_ifs <;> first | omega | tauto
    rw [funext hsplit, sum_map_nat_add, hrest, List.countP_cons]
    have hind : ((premieres_occurrences (joueurs_assignes.map (fun ja => ja.2))).map
        (fun poste =>
          if 2 ≤ (noms_au_poste joueurs_assignes poste).length ∧
              pair.all (fun j => j ∈ noms_au_poste joueurs_assignes poste) = true
            then (1 : ℕ) else 0)).sum =
        if paire_meme_poste joueurs_assignes pair = true then 1 else 0 := by
      rw [sum_indicateur_unique _ _ (nodup_premieres_occurrences _)]
      · congr 1
        simp only [eq_iff_iff]
        constructor
        · rintro ⟨p, hpmem, _, hall⟩
          unfold paire_meme_poste
          rw [List.any_eq_true]
          exact ⟨p, hpmem, hall⟩
        · intro hmp
          unfold paire_meme_poste at hmp
          rw [List.any_eq_true] at hmp
          obtain ⟨p, hpmem, hall⟩ := hmp
          refine ⟨p, hpmem, ?_, hall⟩
          rw [hab, List.all_cons, List.all_cons] at hall
          simp only [Bool.and_eq_true, decide_eq_true_eq] at hall
          exact deux_mem_length hall.1 hall.2.1 hne
      · intro p _ q _ hcp hcq
        have hap : a ∈ noms_au_poste joueurs_assignes p := by
          have := hcp.2
          rw [hab, List.all_cons] at this
          simp only [Bool.and_eq_true, decide_eq_true_eq] at this
          exact this.1
        have haq : a ∈ noms_au_poste joueurs_assignes q := by
          have := hcq.2
          rw [hab, List.all_cons] at this
          simp only [Bool.and_eq_true, decide_eq_true_eq] at this
          exact this.1
        exact noms_au_poste_unique joueurs_assignes hnodup a p q hap haq
    rw [hind]
    split_ifs <;> omega

/-- Claim C7: the same-position anti-synergy penalty equals the configured
weight times the number of configured pairs whose two members are assigned
to one same position; a configured pair split across two positions (or two
teams) contributes nothing. -/
theorem anti_synergies_caracterisation (anti_synergies : List (List String))
    (joueurs_assignes : List (Joueur × String))
    (hnodup : (joueurs_assignes.map (fun ja => ja.1.nom)).Nodup)
    (hpaires : ∀ pair ∈ anti_synergies, pair.length = 2 ∧ pair.Nodup) :
    verifier_anti_synergies_meme_poste anti_synergies joueurs_assignes =
      POIDS_anti_synergie_meme_poste *
        ((anti_synergies.filter (paire_meme_poste joueurs_assignes)).length : ℚ) := by
  unfold verifier_anti_synergies_meme_poste
  have hbody : (fun (penalty : ℚ) (poste : String) =>
      let noms := noms_au_poste joueurs_assignes poste
      if 2 ≤ noms.length then
        anti_synergies.foldl
          (fun pen pair => if pair.all (fun j => j ∈ noms) then
              pen + POIDS_anti_synergie_meme_poste
            else pen)
          penalty
      else penalty) =
      (fun penalty poste => penalty +
        POIDS_anti_synergie_meme_poste *
          (((fun poste =>
            if 2 ≤ (noms_au_poste joueurs_assignes poste).length then
              anti_synergies.countP (fun pair =>
                pair.all (fun j => j ∈ noms_au_poste joueurs_assignes poste))
            else 0) poste : ℕ) : ℚ)) := by
    funext penalty poste
    by_cases hc : 2 ≤ (noms_au_poste joueurs_assignes poste).length
    · simp only [if_pos hc]
      rw [foldl_if_add, List.countP_eq_length_filter]
    · simp only [if_neg hc, Nat.cast_zero, mul_zero, add_zero]
  rw [hbody, foldl_add_map, zero_add, sum_map_mul_cast,
    compte_paires joueurs_assignes hnodup anti_synergies hpaires,
    List.countP_eq_length_filter]

/-- Witness for C7 at a concrete assignment: two defenders forming one
configured anti-synergy pair and separate players elsewhere. -/
theorem anti_synergies_caracterisation_temoin :
    (([(joueur_mono "u" "défenseur" 6 4, "défenseur"),
       (joueur_mono "v" "défenseur" 6 4, "défenseur"),
       (joueur_mono "w" "milieu" 6 4, "milieu")].map (fun ja => ja.1.nom)).Nodup) ∧
    (∀ pair ∈ [["u", "v"], ["u", "w"]], pair.length = 2 ∧ pair.Nodup) ∧
    verifier_anti_synergies_meme_poste [["u", "v"], ["u", "w"]]
        [(joueur_mono "u" "défenseur" 6 4, "défenseur"),
         (joueur_mono "v" "défenseur" 6 4, "défenseur"),
         (joueur_mono "w" "milieu" 6 4, "milieu")] =
      POIDS_anti_synergie_meme_poste *
        (([["u", "v"], ["u", "w"]].filter (paire_meme_poste
          [(joueur_mono "u" "défenseur" 6 4, "défenseur"),
           (joueur_mono "v" "défenseur" 6 4, "défenseur"),
           (joueur_mono "w" "milieu" 6 4, "milieu")])).length : ℚ) :=
  ⟨by decide, by decide,
   anti_synergies_caracterisation [["u", "v"], ["u", "w"]]
     [(joueur_mono "u" "défenseur" 6 4, "défenseur"),
      (joueur_mono "v" "défenseur" 6 4, "défenseur"),
      (joueur_mono "w" "milieu" 6 4, "milieu")] (by decide) (by decide)⟩

theorem maj_meilleur_tv (st : EtatRecherche) (t : ℚ × Details × Details) :
    (maj_meilleur st t).tentatives_valides = st.tentatives_valides + 1 := by
  unfold maj_meilleur
  split <;> rfl

theorem traite_tv :
    ∀ (ts : List (ℚ × Details × Details)) (st : EtatRecherche),
      (traite ts st).tentatives_valides = st.tentatives_valides + ts.length
  | [], st => by simp [traite]
  | t :: ts, st => by
    unfold traite
    rw [traite_tv ts (maj_meilleur st t), maj_meilleur_tv]
    simp only [List.length_cons]
    omega

theorem boucle_eq_traite (synergies anti_synergies : List (List String))
    (historique : List (List String)) :
    ∀ (L : List (List Joueur)) (st : EtatRecherche),
      recherche_boucle synergies anti_synergies historique L st =
        traite (((L.filter essai_valide).take
            (max_iterations - st.tentatives_valides)).map
          (tentative_diff synergies anti_synergies historique)) st
  | [], st => by simp [recherche_boucle, traite]
  | pool :: rest, st => by
    unfold recherche_boucle
    by_cases hstop : max_iterations ≤ st.tentatives_valides
    · rw [if_pos hstop, Nat.sub_eq_zero_of_le hstop]
      simp [traite]
    · rw [if_neg hstop]
      unfold essai_un
      by_cases hv : essai_valide pool
      · rw [if_pos hv]
        rw [boucle_eq_traite synergies anti_synergies historique rest
          (maj_meilleur st (tentative_diff synergies anti_synergies historique pool))]
        rw [maj_meilleur_tv]
        rw [List.filter_cons_of_pos hv]
        have harith : max_iterations - st.tentatives_valides =
            (max_iterations - (st.tentatives_valides + 1)) + 1 := by omega
        rw [harith, List.take_succ_cons, List.map_cons]
        rfl
      · rw [if_neg hv]
        rw [boucle_eq_traite synergies anti_synergies historique rest st]
        rw [List.filter_cons_of_neg (by simpa using hv)]

theorem recherche_eq_traite (synergies anti_synergies : List (List String))
    (historique : List (List String)) (essais : ℕ → List Joueur) :
    recherche synergies anti_synergies historique essais =
      traite (tentatives_retenues synergies anti_synergies historique essais)
        etat_initial := by
  unfold recherche tentatives_retenues
  rw [boucle_eq_traite]
  rfl

theorem foldl_min_le_init :
    ∀ (ts : List (ℚ × Details × Details)) (b : ℚ),
      ts.foldl (fun b t => min b t.1) b ≤ b
  | [], b => le_refl b
  | t :: ts, b => by
    simp only [List.foldl_cons]
    exact le_trans (foldl_min_le_init ts (min b t.1)) (min_le_left _ _)

theorem foldl_min_le :
    ∀ (ts : List (ℚ × Details × Details)) (b : ℚ) (t : ℚ × Details × Details),
      t ∈ ts → ts.foldl (fun b t => min b t.1) b ≤ t.1
  | [], _, _, h => absurd h (List.not_mem_nil _)
  | s :: ts, b, t, h => by
    simp only [List.foldl_cons]
    rcases List.mem_cons.1 h with rfl | h
    · exact le_trans (foldl_min_le_init ts (min b t.1)) (min_le_right _ _)
    · exact foldl_min_le ts (min b s.1) t h

theorem traite_caract :
    ∀ (ts : List (ℚ × Details × Details)) (st : EtatRecherche),
      CaractEtat st.meilleur_diff st.meilleure ts (traite ts st)
  | [], st => by
    refine ⟨by simp [traite], Or.inl ⟨by simp [traite], by simp [traite],
      fun t ht => absurd ht (List.not_mem_nil _)⟩⟩
  | t :: rest, st => by
    unfold traite
    by_cases himp : t.1 < st.meilleur_diff
    · have hmaj : maj_meilleur st t =
          ⟨t.1, some t.2, st.tentatives_valides + 1⟩ := by
        unfold maj_meilleur
        rw [if_pos himp]
      rw [hmaj]
      obtain ⟨hfold, hcase⟩ :=
        traite_caract rest ⟨t.1, some t.2, st.tentatives_valides + 1⟩
      refine ⟨?_, ?_⟩
      · rw [List.foldl_cons, min_eq_right (le_of_lt himp)]
        exact hfold
      · rcases hcase with ⟨hm, hd, hall⟩ | ⟨k, dA, dB, hsome, hget, hlt, hprev⟩
        · right
          refine ⟨0, t.2.1, t.2.2, ?_, ?_, ?_, ?_⟩
          · rw [hm]
          · rw [List.get?_cons_zero, hd]
          · rw [hd]
            exact himp
          · intro j x hj _
            omega
        · right
          refine ⟨k + 1, dA, dB, hsome, ?_, lt_trans hlt himp, ?_⟩
          · rw [List.get?_cons_succ]
            exact hget
          · intro j x hj hx
            cases j with
            | zero =>
              rw [List.get?_cons_zero] at hx
              cases hx
              exact hlt
            | succ j' =>
              rw [List.get?_cons_succ] at hx
              exact hprev j' x (by omega) hx
    · have hb : st.meilleur_diff ≤ t.1 := le_of_not_lt himp
      have hmaj : maj_meilleur st t =
          ⟨st.meilleur_diff, st.meilleure, st.tentatives_valides + 1⟩ := by
        unfold maj_meilleur
        rw [if_neg himp]
      rw [hmaj]
      obtain ⟨hfold, hcase⟩ := traite_caract rest
        ⟨st.meilleur_diff, st.meilleure, st.tentatives_valides + 1⟩
      refine ⟨?_, ?_⟩
      · rw [List.foldl_cons, min_eq_left hb]
        exact hfold
      · rcases hcase with ⟨hm, hd, hall⟩ | ⟨k, dA, dB, hsome, hget, hlt, hprev⟩
        · left
          refine ⟨hm, hd, fun s hs => ?_⟩
          rcases List.mem_cons.1 hs with rfl | hs
          · exact hb
          · exact hall s hs
        · right
          refine ⟨k + 1, dA, dB, hsome, ?_, hlt, ?_⟩
          · rw [List.get?_cons_succ]
            exact hget
          · intro j x hj hx
            cases j with
            | zero =>
              rw [List.get?_cons_zero] at hx
              cases hx
              exact lt_of_lt_of_le hlt hb
            | succ j' =>
              rw [List.get?_cons_succ] at hx
              exact hprev j' x (by omega) hx

theorem filter_replicate_pos {α : Type} (p : α → Bool) (a : α)
    (h : p a = true) :
    ∀ n, (List.replicate n a).filter p = List.replicate n a
  | 0 => rfl
  | n + 1 => by
    rw [List.replicate_succ, List.filter_cons_of_pos h,
      filter_replicate_pos p a h n]

theorem tentatives_const (synergies anti_synergies : List (List String))
    (historique : List (List String)) (P : List Joueur)
    (hv : essai_valide P = true) :
    tentatives_retenues synergies anti_synergies historique (fun _ => P) =
      List.replicate max_iterations
        (tentative_diff synergies anti_synergies historique P) := by
  unfold tentatives_retenues essais_liste
  rw [List.map_const', List.length_range, filter_replicate_pos _ _ hv,
    List.take_replicate, List.map_replicate]
  norm_num [max_iterations]

theorem traite_replicate_stable :
    ∀ (n : ℕ) (st : EtatRecherche) (d : ℚ × Details × Details),
      st.meilleur_diff ≤ d.1 →
      traite (List.replicate n d) st =
        ⟨st.meilleur_diff, st.meilleure, st.tentatives_valides + n⟩
  | 0, st, d, _ => by simp [traite]
  | n + 1, st, d, h => by
    rw [List.replicate_succ]
    unfold traite
    have hmaj : maj_meilleur st d =
        ⟨st.meilleur_diff, st.meilleure, st.tentatives_valides + 1⟩ := by
      unfold maj_meilleur
      rw [if_neg (not_lt.2 h)]
    rw [hmaj, traite_replicate_stable n
      ⟨st.meilleur_diff, st.meilleure, st.tentatives_valides + 1⟩ d h]
    dsimp only
    congr 1
    omega

theorem traite_replicate_gagne (d : ℚ × Details × Details)
    (h : d.1 < 9999) (n : ℕ) :
    traite (List.replicate (n + 1) d) etat_initial =
      ⟨d.1, some (d.2.1, d.2.2), n + 1⟩ := by
  rw [List.replicate_succ]
  unfold traite
  have hmaj : maj_meilleur etat_initial d = ⟨d.1, some d.2, 1⟩ := by
    unfold maj_meilleur etat_initial
    rw [if_pos h]
  rw [hmaj, traite_replicate_stable n ⟨d.1, some d.2, 1⟩ d (le_refl _)]
  dsimp only
  rw [show 1 + n = n + 1 from by omega]

theorem foldl_id {α : Type} : ∀ (l : List α) (x : ℚ),
    l.foldl (fun pen _ => pen) x = x
  | [], x => rfl
  | _ :: l, x => foldl_id l x

theorem calc_synergies_vide (equipe : List String) :
    calc_synergies [] equipe = 0 := rfl

theorem anti_synergies_vide (joueurs_assignes : List (Joueur × String)) :
    verifier_anti_synergies_meme_poste [] joueurs_assignes = 0 := by
  unfold verifier_anti_synergies_meme_poste
  have hbody : (fun (penalty : ℚ) (poste : String) =>
      let noms := noms_au_poste joueurs_assignes poste
      if 2 ≤ noms.length then
        ([] : List (List String)).foldl
          (fun pen pair => if pair.all (fun j => j ∈ noms) then
              pen + POIDS_anti_synergie_meme_poste
            else pen)
          penalty
      else penalty) = fun (penalty : ℚ) _ => penalty := by
    funext penalty poste
    simp only [List.foldl_nil, ite_self]
  rw [hbody, foldl_id]

theorem similarite_vide (equipe : List String) :
    similarite_avec_anciens_matchs equipe [] = 0 := rfl

theorem affectation_b : affecter_postes_optimaux equipe_b = aff_b := by
  have hpref : preferences_equipe equipe_b =
      [(joueur_mono "bG" "gardien" 8 4, "gardien", 10, 0),
       (joueur_mono "bD1" "défenseur" 6 4, "défenseur", 8, 0),
       (joueur_mono "bD2" "défenseur" 8 4, "défenseur", 10, 0),
       (joueur_mono "bM1" "milieu" 6 4, "milieu", 8, 0),
       (joueur_mono "bM2" "milieu" 6 4, "milieu", 8, 0),
       (joueur_mono "bM3" "milieu" 3 4, "milieu", 5, 0),
       (joueur_mono "bA1" "attaquant" 6 4, "attaquant", 8, 0)] := by
    norm_num [preferences_equipe, equipe_b, joueur_mono, score_joueur,
      List.indexOf, List.findIdx, List.findIdx.go, List.enum, List.enumFrom,
      POIDS_leader, POIDS_individualite, POIDS_condition]
  have htri : trier_stable pref_le (preferences_equipe equipe_b) =
      [(joueur_mono "bG" "gardien" 8 4, "gardien", 10, 0),
       (joueur_mono "bD2" "défenseur" 8 4, "défenseur", 10, 0),
       (joueur_mono "bD1" "défenseur" 6 4, "défenseur", 8, 0),
       (joueur_mono "bM1" "milieu" 6 4, "milieu", 8, 0),
       (joueur_mono "bM2" "milieu" 6 4, "milieu", 8, 0),
       (joueur_mono "bA1" "attaquant" 6 4, "attaquant", 8, 0),
       (joueur_mono "bM3" "milieu" 3 4, "milieu", 5, 0)] := by
    rw [hpref]
    norm_num [trier_stable, inserer_trie, pref_le]
  rw [affecter_postes_optimaux, htri]
  simp [affecter_boucle, equipe_b, joueur_mono, COMPOSITION, aff_b,
    PostesRestants.get, PostesRestants.decr]

theorem affectation_a : affecter_postes_optimaux equipe_a = aff_a := by
  have hpref : preferences_equipe equipe_a =
      [(joueur_mono "aG" "gardien" 8 4, "gardien", 10, 0),
       (joueur_mono "aD1" "défenseur" 6 4, "défenseur", 8, 0),
       (joueur_mono "aD2" "défenseur" 8 4, "défenseur", 10, 0),
       (joueur_mono "aM1" "milieu" 6 4, "milieu", 8, 0),
       (joueur_mono "aM2" "milieu" 6 4, "milieu", 8, 0),
       (joueur_mono "aM3" "milieu" 3 4, "milieu", 5, 0),
       (joueur_mono "aA1" "attaquant" 6 4, "attaquant", 8, 0)] := by
    norm_num [preferences_equipe, equipe_a, joueur_mono, score_joueur,
      List.indexOf, List.findIdx, List.findIdx.go, List.enum, List.enumFrom,
      POIDS_leader, POIDS_individualite, POIDS_condition]
  have htri : trier_stable pref_le (preferences_equipe equipe_a) =
      [(joueur_mono "aG" "gardien" 8 4, "gardien", 10, 0),
       (joueur_mono "aD2" "défenseur" 8 4, "défenseur", 10, 0),
       (joueur_mono "aD1" "défenseur" 6 4, "défenseur", 8, 0),
       (joueur_mono "aM1" "milieu" 6 4, "milieu", 8, 0),
       (joueur_mono "aM2" "milieu" 6 4, "milieu", 8, 0),
       (joueur_mono "aA1" "attaquant" 6 4, "attaquant", 8, 0),
       (joueur_mono "aM3" "milieu" 3 4, "milieu", 5, 0)] := by
    rw [hpref]
    norm_num [trier_stable, inserer_trie, pref_le]
  rw [affecter_postes_optimaux, htri]
  simp [affecter_boucle, equipe_a, joueur_mono, COMPOSITION, aff_a,
    PostesRestants.get, PostesRestants.decr]

theorem affectation_xa : affecter_postes_optimaux equipe_xa = aff_xa := by
  have hpref : preferences_equipe equipe_xa =
      [(joueur_mono "xG" "gardien" 8 100000, "gardien", 100046/5, 0),
       (joueur_mono "xD1" "défenseur" 6 4, "défenseur", 8, 0),
       (joueur_mono "xD2" "défenseur" 8 4, "défenseur", 10, 0),
       (joueur_mono "xM1" "milieu" 6 4, "milieu", 8, 0),
       (joueur_mono "xM2" "milieu" 6 4, "milieu", 8, 0),
       (joueur_mono "xM3" "milieu" 3 4, "milieu", 5, 0),
       (joueur_mono "xA1" "attaquant" 6 4, "attaquant", 8, 0)] := by
    norm_num [preferences_equipe, equipe_xa, joueur_mono, score_joueur,
      List.indexOf, List.findIdx, List.findIdx.go, List.enum, List.enumFrom,
      POIDS_leader, POIDS_individualite, POIDS_condition]
  have htri : trier_stable pref_le (preferences_equipe equipe_xa) =
      [(joueur_mono "xG" "gardien" 8 100000, "gardien", 100046/5, 0),
       (joueur_mono "xD2" "défenseur" 8 4, "défenseur", 10, 0),
       (joueur_mono "xD1" "défenseur" 6 4, "défenseur", 8, 0),
       (joueur_mono "xM1" "milieu" 6 4, "milieu", 8, 0),
       (joueur_mono "xM2" "milieu" 6 4, "milieu", 8, 0),
       (joueur_mono "xA1" "attaquant" 6 4, "attaquant", 8, 0),
       (joueur_mono "xM3" "milieu" 3 4, "milieu", 5, 0)] := by
    rw [hpref]
    norm_num [trier_stable, inserer_trie, pref_le]
  rw [affecter_postes_optimaux, htri]
  simp [affecter_boucle, equipe_xa, joueur_mono, COMPOSITION, aff_xa,
    PostesRestants.get, PostesRestants.decr]

theorem contraintes_b : verifier_contraintes equipe_b = (true, "OK") := by
  norm_num [verifier_contraintes, nb_elite, nb_faible, total_leadership,
    total_individualite, total_condition, equipe_b, joueur_mono,
    List.countP_cons, List.countP_nil, categoriser_joueur,
    score_global_joueur, score_joueur, POIDS_leader, POIDS_individualite,
    POIDS_condition, SEUIL_ELITE, SEUIL_FAIBLE, elite_min, elite_max,
    faible_min, faible_max, leadership_min, leadership_max,
    individualite_min, individualite_max, condition_min, List.indexOf,
    List.findIdx, List.findIdx.go]
  all_goals simp

theorem contraintes_a : verifier_contraintes equipe_a = (true, "OK") := by
  norm_num [verifier_contraintes, nb_elite, nb_faible, total_leadership,
    total_individualite, total_condition, equipe_a, joueur_mono,
    List.countP_cons, List.countP_nil, categoriser_joueur,
    score_global_joueur, score_joueur, POIDS_leader, POIDS_individualite,
    POIDS_condition, SEUIL_ELITE, SEUIL_FAIBLE, elite_min, elite_max,
    faible_min, faible_max, leadership_min, leadership_max,
    individualite_min, individualite_max, condition_min, List.indexOf,
    List.findIdx, List.findIdx.go]
  all_goals simp

theorem contraintes_xa : verifier_contraintes equipe_xa = (true, "OK") := by
  norm_num [verifier_contraintes, nb_elite, nb_faible, total_leadership,
    total_individualite, total_condition, equipe_xa, joueur_mono,
    List.countP_cons, List.countP_nil, categoriser_joueur,
    score_global_joueur, score_joueur, POIDS_leader, POIDS_individualite,
    POIDS_condition, SEUIL_ELITE, SEUIL_FAIBLE, elite_min, elite_max,
    faible_min, faible_max, leadership_min, leadership_max,
    individualite_min, individualite_max, condition_min, List.indexOf,
    List.findIdx, List.findIdx.go]
  all_goals simp

theorem complementarite_b :
    verifier_contraintes_complementarite aff_b = (true, "OK") ∧
    analyser_complementarite_postes aff_b = 3 := by
  have hpostes : premieres_occurrences (aff_b.map (fun ja => ja.2)) =
      ["gardien", "défenseur", "milieu", "attaquant"] := by
    simp [premieres_occurrences, premieres_occurrences_aux, aff_b, joueur_mono]
  have hg : scores_au_poste aff_b "gardien" = [10] := by
    simp [scores_au_poste, aff_b, joueur_mono, score_joueur, List.indexOf,
      List.findIdx, List.findIdx.go]
    norm_num [POIDS_leader, POIDS_individualite, POIDS_condition]
  have hd : scores_au_poste aff_b "défenseur" = [10, 8] := by
    simp [scores_au_poste, aff_b, joueur_mono, score_joueur, List.indexOf,
      List.findIdx, List.findIdx.go]
    norm_num [POIDS_leader, POIDS_individualite, POIDS_condition]
  have hm : scores_au_poste aff_b "milieu" = [8, 8, 5] := by
    simp [scores_au_poste, aff_b, joueur_mono, score_joueur, List.indexOf,
      List.findIdx, List.findIdx.go]
    norm_num [POIDS_leader, POIDS_individualite, POIDS_condition]
  have ha : scores_au_poste aff_b "attaquant" = [8] := by
    simp [scores_au_poste, aff_b, joueur_mono, score_joueur, List.indexOf,
      List.findIdx, List.findIdx.go]
    norm_num [POIDS_leader, POIDS_individualite, POIDS_condition]
  constructor
  · rw [verifier_contraintes_complementarite, hpostes]
    norm_num [List.find?_cons, hg, hd, hm, ha, SEUIL_FAIBLE_POSTE,
      min_score_ligne_defense, min_score_ligne_milieu, List.countP_cons,
      List.countP_nil]
  · rw [analyser_complementarite_postes, hpostes]
    norm_num [hg, hd, hm, ha, analyse_ligne, ecart_scores, SEUIL_FAIBLE_POSTE,
      min_score_ligne_defense, min_score_ligne_milieu, max_faibles_par_ligne,
      bonus_ligne_equilibree, List.countP_cons, List.countP_nil, max_def,
      min_def]

theorem complementarite_a :
    verifier_contraintes_complementarite aff_a = (true, "OK") ∧
    analyser_complementarite_postes aff_a = 3 := by
  have hpostes : premieres_occurrences (aff_a.map (fun ja => ja.2)) =
      ["gardien", "défenseur", "milieu", "attaquant"] := by
    simp [premieres_occurrences, premieres_occurrences_aux, aff_a, joueur_mono]
  have hg : scores_au_poste aff_a "gardien" = [10] := by
    simp [scores_au_poste, aff_a, joueur_mono, score_joueur, List.indexOf,
      List.findIdx, List.findIdx.go]
    norm_num [POIDS_leader, POIDS_individualite, POIDS_condition]
  have hd : scores_au_poste aff_a "défenseur" = [10, 8] := by
    simp [scores_au_poste, aff_a, joueur_mono, score_joueur, List.indexOf,
      List.findIdx, List.findIdx.go]
    norm_num [POIDS_leader, POIDS_individualite, POIDS_condition]
  have hm : scores_au_poste aff_a "milieu" = [8, 8, 5] := by
    simp [scores_au_poste, aff_a, joueur_mono, score_joueur, List.indexOf,
      List.findIdx, List.findIdx.go]
    norm_num [POIDS_leader, POIDS_individualite, POIDS_condition]
  have ha : scores_au_poste aff_a "attaquant" = [8] := by
    simp [scores_au_poste, aff_a, joueur_mono, score_joueur, List.indexOf,
      List.findIdx, List.findIdx.go]
    norm_num [POIDS_leader, POIDS_individualite, POIDS_condition]
  constructor
  · rw [verifier_contraintes_complementarite, hpostes]
    norm_num [List.find?_cons, hg, hd, hm, ha, SEUIL_FAIBLE_POSTE,
      min_score_ligne_defense, min_score_ligne_milieu, List.countP_cons,
      List.countP_nil]
  · rw [analyser_complementarite_postes, hpostes]
    norm_num [hg, hd, hm, ha, analyse_ligne, ecart_scores, SEUIL_FAIBLE_POSTE,
      min_score_ligne_defense, min_score_ligne_milieu, max_faibles_par_ligne,
      bonus_ligne_equilibree, List.countP_cons, List.countP_nil, max_def,
      min_def]

theorem complementarite_xa :
    verifier_contraintes_complementarite aff_xa = (true, "OK") ∧
    analyser_complementarite_postes aff_xa = 3 := by
  have hpostes : premieres_occurrences (aff_xa.map (fun ja => ja.2)) =
      ["gardien", "défenseur", "milieu", "attaquant"] := by
    simp [premieres_occurrences, premieres_occurrences_aux, aff_xa, joueur_mono]
  have hg : scores_au_poste aff_xa "gardien" = [100046/5] := by
    simp [scores_au_poste, aff_xa, joueur_mono, score_joueur, List.indexOf,
      List.findIdx, List.findIdx.go]
    norm_num [POIDS_leader, POIDS_individualite, POIDS_condition]
  have hd : scores_au_poste aff_xa "défenseur" = [10, 8] := by
    simp [scores_au_poste, aff_xa, joueur_mono, score_joueur, List.indexOf,
      List.findIdx, List.findIdx.go]
    norm_num [POIDS_leader, POIDS_individualite, POIDS_condition]
  have hm : scores_au_poste aff_xa "milieu" = [8, 8, 5] := by
    simp [scores_au_poste, aff_xa, joueur_mono, score_joueur, List.indexOf,
      List.findIdx, List.findIdx.go]
    norm_num [POIDS_leader, POIDS_individualite, POIDS_condition]
  have ha : scores_au_poste aff_xa "attaquant" = [8] := by
    simp [scores_au_poste, aff_xa, joueur_mono, score_joueur, List.indexOf,
      List.findIdx, List.findIdx.go]
    norm_num [POIDS_leader, POIDS_individualite, POIDS_condition]
  constructor
  · rw [verifier_contraintes_complementarite, hpostes]
    norm_num [List.find?_cons, hg, hd, hm, ha, SEUIL_FAIBLE_POSTE,
      min_score_ligne_defense, min_score_ligne_milieu, List.countP_cons,
      List.countP_nil]
  · rw [analyser_complementarite_postes, hpostes]
    norm_num [hg, hd, hm, ha, analyse_ligne, ecart_scores, SEUIL_FAIBLE_POSTE,
      min_score_ligne_defense, min_score_ligne_milieu, max_faibles_par_ligne,
      bonus_ligne_equilibree, List.countP_cons, List.countP_nil, max_def,
      min_def]

theorem score_b :
    (score_equipe [] [] [] equipe_b).1 = 60 ∧
    (score_equipe [] [] [] equipe_b).2.leadership = 14 ∧
    (score_equipe [] [] [] equipe_b).2.individualite = 28 ∧
    (score_equipe [] [] [] equipe_b).2.condition = 28 := by
  have hbase : ((aff_b.map (fun ja => score_joueur ja.1 ja.2)).sum : ℚ) = 57 := by
    simp [aff_b, joueur_mono, score_joueur, List.indexOf, List.findIdx,
      List.findIdx.go]
    norm_num [POIDS_leader, POIDS_individualite, POIDS_condition]
  unfold score_equipe
  rw [affectation_b]
  dsimp only
  rw [hbase, complementarite_b.2, anti_synergies_vide, similarite_vide,
    calc_synergies_vide]
  refine ⟨by norm_num, ?_, ?_, ?_⟩ <;>
    norm_num [total_leadership, total_individualite, total_condition,
      equipe_b, joueur_mono]

theorem score_a :
    (score_equipe [] [] [] equipe_a).1 = 60 ∧
    (score_equipe [] [] [] equipe_a).2.leadership = 14 ∧
    (score_equipe [] [] [] equipe_a).2.individualite = 28 ∧
    (score_equipe [] [] [] equipe_a).2.condition = 28 := by
  have hbase : ((aff_a.map (fun ja => score_joueur ja.1 ja.2)).sum : ℚ) = 57 := by
    simp [aff_a, joueur_mono, score_joueur, List.indexOf, List.findIdx,
      List.findIdx.go]
    norm_num [POIDS_leader, POIDS_individualite, POIDS_condition]
  unfold score_equipe
  rw [affectation_a]
  dsimp only
  rw [hbase, complementarite_a.2, anti_synergies_vide, similarite_vide,
    calc_synergies_vide]
  refine ⟨by norm_num, ?_, ?_, ?_⟩ <;>
    norm_num [total_leadership, total_individualite, total_condition,
      equipe_a, joueur_mono]

theorem score_xa :
    (score_equipe [] [] [] equipe_xa).1 = 100296/5 ∧
    (score_equipe [] [] [] equipe_xa).2.leadership = 14 ∧
    (score_equipe [] [] [] equipe_xa).2.individualite = 28 ∧
    (score_equipe [] [] [] equipe_xa).2.condition = 100024 := by
  have hbase : ((aff_xa.map (fun ja => score_joueur ja.1 ja.2)).sum : ℚ) =
      100281/5 := by
    simp [aff_xa, joueur_mono, score_joueur, List.indexOf, List.findIdx,
      List.findIdx.go]
    norm_num [POIDS_leader, POIDS_individualite, POIDS_condition]
  unfold score_equipe
  rw [affectation_xa]
  dsimp only
  rw [hbase, complementarite_xa.2, anti_synergies_vide, similarite_vide,
    calc_synergies_vide]
  refine ⟨by norm_num, ?_, ?_, ?_⟩ <;>
    norm_num [total_leadership, total_individualite, total_condition,
      equipe_xa, joueur_mono]

theorem pool_equilibre_take : pool_equilibre.take TEAM_SIZE = equipe_a := by
  unfold pool_equilibre
  rw [show TEAM_SIZE = equipe_a.length from rfl, List.take_left]

theorem pool_equilibre_drop : pool_equilibre.drop TEAM_SIZE = equipe_b := by
  unfold pool_equilibre
  rw [show TEAM_SIZE = equipe_a.length from rfl, List.drop_left]

theorem pool_desequilibre_take : pool_desequilibre.take TEAM_SIZE = equipe_xa := by
  unfold pool_desequilibre
  rw [show TEAM_SIZE = equipe_xa.length from rfl, List.take_left]

theorem pool_desequilibre_drop : pool_desequilibre.drop TEAM_SIZE = equipe_b := by
  unfold pool_desequilibre
  rw [show TEAM_SIZE = equipe_xa.length from rfl, List.drop_left]

theorem essai_valide_equilibre : essai_valide pool_equilibre = true := by
  simp only [essai_valide]
  rw [pool_equilibre_take, pool_equilibre_drop, contraintes_a, contraintes_b,
    affectation_a, affectation_b, complementarite_a.1, complementarite_b.1]
  rfl

theorem essai_valide_desequilibre : essai_valide pool_desequilibre = true := by
  simp only [essai_valide]
  rw [pool_desequilibre_take, pool_desequilibre_drop, contraintes_xa,
    contraintes_b, affectation_xa, affectation_b, complementarite_xa.1,
    complementarite_b.1]
  rfl

theorem tentative_equilibre_valeur : tentative_equilibre.1 = 0 := by
  unfold tentative_equilibre tentative_diff
  rw [pool_equilibre_take, pool_equilibre_drop]
  dsimp only
  rw [score_a.1, score_b.1, score_a.2.1, score_b.2.1, score_a.2.2.1,
    score_b.2.2.1, score_a.2.2.2, score_b.2.2.2]
  simp

theorem tentative_desequilibre_valeur :
    (tentative_diff [] [] [] pool_desequilibre).1 = 49998 := by
  unfold tentative_diff
  rw [pool_desequilibre_take, pool_desequilibre_drop]
  dsimp only
  rw [score_xa.1, score_b.1, score_xa.2.1, score_b.2.1, score_xa.2.2.1,
    score_b.2.2.1, score_xa.2.2.2, score_b.2.2.2]
  have h1 : |(100296/5 : ℚ) - 60| = 99996/5 := by
    rw [show (100296/5 : ℚ) - 60 = 99996/5 by norm_num]
    exact abs_of_nonneg (by norm_num)
  have h4 : |(100024 : ℚ) - 28| = 99996 := by
    rw [show (100024 : ℚ) - 28 = 99996 by norm_num]
    exact abs_of_nonneg (by norm_num)
  rw [h1, h4]
  norm_num

/-- Claim C1 (amended): the search consults only the first
`max_iterations * 3` draws of the shuffle stream (the raw-trial budget); the
number of valid attempts it scores is the number of valid trials among those
draws, capped at `max_iterations`; among the scored attempts it keeps the
first one achieving the minimal imbalance metric (strict improvement
required to replace, first-found wins ties); and it ends with no pair — the
"Aucune combinaison valide" failure — exactly when no valid attempt achieved
an imbalance strictly below the initial sentinel 9999 (in particular
whenever zero valid attempts occurred). -/
theorem recherche_caracterisation (synergies anti_synergies : List (List String))
    (historique : List (List String)) (essais : ℕ → List Joueur) :
    recherche synergies anti_synergies historique essais =
      recherche synergies anti_synergies historique
        (fun t => if t < max_iterations * 3 then essais t else []) ∧
    (recherche synergies anti_synergies historique essais).tentatives_valides =
      min max_iterations ((essais_liste essais).filter essai_valide).length ∧
    ((recherche synergies anti_synergies historique essais).meilleure = none ↔
      ∀ t ∈ tentatives_retenues synergies anti_synergies historique essais,
        9999 ≤ t.1) ∧
    ∀ dA dB,
      (recherche synergies anti_synergies historique essais).meilleure =
        some (dA, dB) →
      (recherche synergies anti_synergies historique essais).meilleur_diff <
        9999 ∧
      ∃ k,
        (tentatives_retenues synergies anti_synergies historique essais).get? k =
          some ((recherche synergies anti_synergies historique
            essais).meilleur_diff, dA, dB) ∧
        (∀ j x, j < k →
          (tentatives_retenues synergies anti_synergies historique
            essais).get? j = some x →
          (recherche synergies anti_synergies historique
            essais).meilleur_diff < x.1) ∧
        (∀ j x,
          (tentatives_retenues synergies anti_synergies historique
            essais).get? j = some x →
          (recherche synergies anti_synergies historique
            essais).meilleur_diff ≤ x.1) := by
  have hc : CaractEtat 9999 none
      (tentatives_retenues synergies anti_synergies historique essais)
      (recherche synergies anti_synergies historique essais) := by
    rw [recherche_eq_traite]
    exact traite_caract _ etat_initial
  obtain ⟨hfold, hcase⟩ := hc
  refine ⟨?_, ?_, ?_, ?_⟩
  · have hl : essais_liste essais = essais_liste
        (fun t => if t < max_iterations * 3 then essais t else []) := by
      unfold essais_liste
      refine List.map_congr_left (fun t ht => ?_)
      rw [List.mem_range] at ht
      exact (if_pos ht).symm
    unfold recherche
    rw [hl]
  · rw [recherche_eq_traite, traite_tv]
    unfold tentatives_retenues
    rw [List.length_map, List.length_take]
    simp [etat_initial]
  · constructor
    · intro hnone
      rcases hcase with ⟨_, _, hall⟩ | ⟨k, dA, dB, hsome, _, _, _⟩
      · exact hall
      · rw [hnone] at hsome
        cases hsome
    · intro hall
      rcases hcase with ⟨hm, _, _⟩ | ⟨k, dA, dB, hsome, hget, hlt, _⟩
      · exact hm
      · have hmem := List.get?_mem hget
        have h9 := hall _ hmem
        dsimp only at h9
        exact absurd hlt (not_lt.2 h9)
  · intro dA dB hsome'
    rcases hcase with ⟨hm, _, _⟩ | ⟨k, dA', dB', hsome, hget, hlt, hprev⟩
    · rw [hm] at hsome'
      cases hsome'
    · rw [hsome] at hsome'
      obtain ⟨rfl, rfl⟩ : dA' = dA ∧ dB' = dB := by simpa using hsome'
      refine ⟨hlt, k, hget, hprev, ?_⟩
      intro j x hx
      have hmem := List.get?_mem hx
      rw [hfold]
      exact foldl_min_le _ _ _ hmem

set_option maxRecDepth 2000 in
/-- Counterexample for C1 as stated: with the 14 resolved players of
`pool_desequilibre` and an empty history, every one of the 5000 counted
valid attempts passes both validations, yet the search ends with no best
pair — the handler would answer "Aucune combinaison valide" — because every
valid attempt's imbalance metric (49998) is at least the initial sentinel
9999.  The failure result therefore does not occur exactly when zero valid
attempts occurred. -/
theorem recherche_contre_exemple :
    (recherche [] [] [] (fun _ => pool_desequilibre)).meilleure = none ∧
    (recherche [] [] [] (fun _ => pool_desequilibre)).tentatives_valides =
      5000 := by
  rw [recherche_eq_traite,
    tentatives_const [] [] [] pool_desequilibre essai_valide_desequilibre,
    traite_replicate_stable max_iterations etat_initial _
      (by rw [tentative_desequilibre_valeur]; norm_num [etat_initial])]
  constructor
  · rfl
  · show etat_initial.tentatives_valides + max_iterations = 5000
    norm_num [etat_initial, max_iterations]

set_option maxRecDepth 2000 in
/-- Claim C9: a request whose selected-player list does not have exactly 14
entries, or whose names do not resolve to 14 registry players, is answered
with a client error (HTTP 400) and leaves the stored history unchanged. -/
theorem validation_erreur (joueurs_data : List Joueur)
    (selected_names : List String)
    (synergies anti_synergies : List (List String))
    (historique : List (List String)) (essais : ℕ → List Joueur)
    (h : selected_names.length ≠ 14 ∨
      (joueurs_data.filter (fun j => j.nom ∈ selected_names)).length ≠ 14) :
    (∃ message, (generate_teams joueurs_data selected_names synergies
      anti_synergies historique essais).1 = .erreur400 message) ∧
    (generate_teams joueurs_data selected_names synergies anti_synergies
      historique essais).2 = historique := by
  unfold generate_teams
  by_cases h1 : selected_names.length ≠ 14
  · rw [if_pos h1]
    exact ⟨⟨_, rfl⟩, rfl⟩
  · rw [if_neg h1]
    have h2 : (joueurs_data.filter (fun j => j.nom ∈ selected_names)).length ≠
        14 := h.resolve_left h1
    rw [if_pos h2]
    exact ⟨⟨_, rfl⟩, rfl⟩

/-- Witness for C9 at a concrete bad request: an empty selected list. -/
theorem validation_erreur_temoin :
    ((([] : List String)).length ≠ 14 ∨
      ((([] : List Joueur)).filter (fun j => j.nom ∈ ([] : List String))).length ≠
        14) ∧
    ((∃ message, (generate_teams [] [] [] [] [] (fun _ => [])).1 =
      .erreur400 message) ∧
    (generate_teams [] [] [] [] [] (fun _ => [])).2 = []) :=
  ⟨Or.inl (by decide),
   validation_erreur [] [] [] [] [] (fun _ => []) (Or.inl (by decide))⟩

set_option maxRecDepth 2000 in
/-- Claim C2: after every successful generate-teams call the stored history
is the previous history with the two winning name lists appended, truncated
to its most recent `2 * MAX_HISTORY` entries; hence its last two entries are
team A's and team B's name lists in that order, and if the previous length
was `min(2k, 2 * MAX_HISTORY)` (k successful calls so far starting from an
empty file), the new length is `min(2(k+1), 2 * MAX_HISTORY)`. -/
theorem historique_apres_succes (joueurs_data : List Joueur)
    (selected_names : List String)
    (synergies anti_synergies : List (List String))
    (historique : List (List String)) (essais : ℕ → List Joueur)
    (dA dB : Details) (n : ℕ) (hist2 : List (List String))
    (hsucc : generate_teams joueurs_data selected_names synergies
      anti_synergies historique essais = (.succes dA dB n, hist2)) :
    hist2 = sauve_historique (historique ++ [equipe_noms dA, equipe_noms dB]) ∧
    hist2.length = min (historique.length + 2) (2 * MAX_HISTORY) ∧
    hist2.drop (hist2.length - 2) = [equipe_noms dA, equipe_noms dB] ∧
    ∀ k, historique.length = min (2 * k) (2 * MAX_HISTORY) →
      hist2.length = min (2 * (k + 1)) (2 * MAX_HISTORY) := by
  unfold generate_teams at hsucc
  by_cases h1 : selected_names.length ≠ 14
  · rw [if_pos h1] at hsucc
    simp at hsucc
  · rw [if_neg h1] at hsucc
    by_cases h2 : (joueurs_data.filter
        (fun j => j.nom ∈ selected_names)).length ≠ 14
    · rw [if_pos h2] at hsucc
      simp at hsucc
    · rw [if_neg h2] at hsucc
      dsimp only at hsucc
      rcases hm : (recherche synergies anti_synergies historique
          essais).meilleure with _ | ⟨dA', dB'⟩
      · rw [hm] at hsucc
        simp at hsucc
      · rw [hm] at hsucc
        simp only [Prod.mk.injEq, Reponse.succes.injEq] at hsucc
        obtain ⟨⟨hA, hB, _⟩, h6⟩ := hsucc
        rw [hA, hB] at h6
        have hlen : hist2.length =
            min (historique.length + 2) (2 * MAX_HISTORY) := by
          rw [← h6]
          unfold sauve_historique
          rw [List.length_drop, List.length_append]
          simp only [show (2 : ℕ) * MAX_HISTORY = 10 from rfl,
            show MAX_HISTORY * 2 = 10 from rfl, List.length_cons,
            List.length_nil]
          omega
        refine ⟨h6.symm, hlen, ?_, ?_⟩
        · rw [hlen, ← h6]
          unfold sauve_historique
          rw [List.drop_drop]
          have harg : (historique ++
                [equipe_noms dA, equipe_noms dB]).length - MAX_HISTORY * 2 +
              (min (historique.length + 2) (2 * MAX_HISTORY) - 2) =
              historique.length := by
            rw [List.length_append,
              show ([equipe_noms dA, equipe_noms dB] :
                List (List String)).length = 2 from rfl]
            simp only [show (2 : ℕ) * MAX_HISTORY = 10 from rfl,
              show MAX_HISTORY * 2 = 10 from rfl]
            omega
          rw [harg]
          exact List.drop_left _ _
        · intro k hk
          rw [hlen, hk]
          simp only [show (2 : ℕ) * MAX_HISTORY = 10 from rfl]
          omega

/-- A concrete successful generate-teams call: the balanced fixture pool
with an empty stored history and a constant shuffle stream reaches the
valid-attempt cap and returns the pair scored from that pool. -/
theorem generation_equilibre :
    generate_teams pool_equilibre (pool_equilibre.map (fun j => j.nom)) [] []
        [] (fun _ => pool_equilibre) =
      (.succes tentative_equilibre.2.1 tentative_equilibre.2.2 5000,
        sauve_historique ([] ++ [equipe_noms tentative_equilibre.2.1,
          equipe_noms tentative_equilibre.2.2])) := by
  have hst : recherche [] [] [] (fun _ => pool_equilibre) =
      ⟨tentative_equilibre.1,
        some (tentative_equilibre.2.1, tentative_equilibre.2.2), 5000⟩ := by
    rw [recherche_eq_traite,
      tentatives_const [] [] [] pool_equilibre essai_valide_equilibre,
      show max_iterations = 4999 + 1 from rfl]
    exact traite_replicate_gagne _
      (by rw [show (tentative_diff [] [] [] pool_equilibre).1 =
            tentative_equilibre.1 from rfl, tentative_equilibre_valeur]
          norm_num) 4999
  have h1 : ¬((pool_equilibre.map (fun j => j.nom)).length ≠ 14) := by decide
  have h2 : ¬((pool_equilibre.filter (fun j => j.nom ∈
      pool_equilibre.map (fun j => j.nom))).length ≠ 14) := by decide
  unfold generate_teams
  rw [if_neg h1, if_neg h2, hst]

/-- Witness for C2 at the concrete successful call of
`generation_equilibre`. -/
theorem historique_apres_succes_temoin :
    (generate_teams pool_equilibre (pool_equilibre.map (fun j => j.nom)) [] []
        [] (fun _ => pool_equilibre) =
      (.succes tentative_equilibre.2.1 tentative_equilibre.2.2 5000,
        sauve_historique ([] ++ [equipe_noms tentative_equilibre.2.1,
          equipe_noms tentative_equilibre.2.2]))) ∧
    (sauve_historique ([] ++ [equipe_noms tentative_equilibre.2.1,
        equipe_noms tentative_equilibre.2.2]) =
      sauve_historique (([] : List (List String)) ++
        [equipe_noms tentative_equilibre.2.1,
          equipe_noms tentative_equilibre.2.2]) ∧
     (sauve_historique ([] ++ [equipe_noms tentative_equilibre.2.1,
        equipe_noms tentative_equilibre.2.2])).length =
       min (([] : List (List String)).length + 2) (2 * MAX_HISTORY) ∧
     (sauve_historique ([] ++ [equipe_noms tentative_equilibre.2.1,
        equipe_noms tentative_equilibre.2.2])).drop
         ((sauve_historique ([] ++ [equipe_noms tentative_equilibre.2.1,
           equipe_noms tentative_equilibre.2.2])).length - 2) =
       [equipe_noms tentative_equilibre.2.1,
        equipe_noms tentative_equilibre.2.2] ∧
     ∀ k, (([] : List (List String))).length = min (2 * k) (2 * MAX_HISTORY) →
       (sauve_historique ([] ++ [equipe_noms tentative_equilibre.2.1,
         equipe_noms tentative_equilibre.2.2])).length =
         min (2 * (k + 1)) (2 * MAX_HISTORY)) :=
  ⟨generation_equilibre,
   historique_apres_succes pool_equilibre
     (pool_equilibre.map (fun j => j.nom)) [] [] [] (fun _ => pool_equilibre)
     tentative_equilibre.2.1 tentative_equilibre.2.2 5000
     (sauve_historique ([] ++ [equipe_noms tentative_equilibre.2.1,
       equipe_noms tentative_equilibre.2.2])) generation_equilibre⟩

/-- Witness for C4 at the concrete 7-player team `equipe_b`. -/
theorem contraintes_caracterisation_temoin :
    equipe_b.length = 7 ∧
    (((verifier_contraintes equipe_b).1 = false ↔
      ((nb_elite equipe_b < elite_min ∨ elite_max < nb_elite equipe_b) ∨
       (nb_faible equipe_b < faible_min ∨ faible_max < nb_faible equipe_b) ∨
       (total_leadership equipe_b < leadership_min ∨
         leadership_max < total_leadership equipe_b) ∨
       (total_individualite equipe_b < individualite_min ∨
         individualite_max < total_individualite equipe_b) ∨
       total_condition equipe_b < condition_min)) ∧
    (verifier_contraintes equipe_b = (false, "Elite") ↔
      (nb_elite equipe_b < elite_min ∨ elite_max < nb_elite equipe_b)) ∧
    (verifier_contraintes equipe_b = (false, "Faible") ↔
      (¬(nb_elite equipe_b < elite_min ∨ elite_max < nb_elite equipe_b) ∧
       (nb_faible equipe_b < faible_min ∨ faible_max < nb_faible equipe_b))) ∧
    (verifier_contraintes equipe_b = (false, "Leadership") ↔
      (¬(nb_elite equipe_b < elite_min ∨ elite_max < nb_elite equipe_b) ∧
       ¬(nb_faible equipe_b < faible_min ∨ faible_max < nb_faible equipe_b) ∧
       (total_leadership equipe_b < leadership_min ∨
         leadership_max < total_leadership equipe_b))) ∧
    (verifier_contraintes equipe_b = (false, "Individualité") ↔
      (¬(nb_elite equipe_b < elite_min ∨ elite_max < nb_elite equipe_b) ∧
       ¬(nb_faible equipe_b < faible_min ∨ faible_max < nb_faible equipe_b) ∧
       ¬(total_leadership equipe_b < leadership_min ∨
         leadership_max < total_leadership equipe_b) ∧
       (total_individualite equipe_b < individualite_min ∨
         individualite_max < total_individualite equipe_b))) ∧
    (verifier_contraintes equipe_b = (false, "Condition") ↔
      (¬(nb_elite equipe_b < elite_min ∨ elite_max < nb_elite equipe_b) ∧
       ¬(nb_faible equipe_b < faible_min ∨ faible_max < nb_faible equipe_b) ∧
       ¬(total_leadership equipe_b < leadership_min ∨
         leadership_max < total_leadership equipe_b) ∧
       ¬(total_individualite equipe_b < individualite_min ∨
         individualite_max < total_individualite equipe_b) ∧
       total_condition equipe_b < condition_min))) :=
  ⟨by decide, contraintes_caracterisation equipe_b (by decide)⟩

end App
